import Mathlib

/-!
Shallow embedding of `js/scripts/generate-wrappers.js` (the pythreejs wrapper
generator): the class-config resolver (`getClassConfig`), the reference
resolver (`getRequireInfoFromClassDescriptor`, `processSuperClass`,
`processDependencies` of both wrapper classes), the wrapper-context builders,
the per-class generator entry points, and the directory-index filter, together
with theorems settling the specification claims.

JavaScript objects used as string-keyed maps are embedded as association
lists (`ObjMap`); machine side effects (file existence checks) are embedded as
an explicit predicate `fs : String → Bool`; `new Date()` is embedded as a
`Nat` clock reading threaded into the rendering contexts; exceptions are
embedded as `Except GenErr`.
-/

/-- A JavaScript object used as a string-keyed map: an association list whose
keys are unique by construction.  `objGet` is property lookup. -/
abbrev ObjMap (α : Type) := List (String × α)

def objGet {α : Type} : ObjMap α → String → Option α
  | [], _ => none
  | (k0, v) :: rest, k => if k = k0 then some v else objGet rest k

/-- Property assignment `m[k] = v`: replaces the value in place when the key
exists, appends otherwise (JavaScript keeps the original insertion order). -/
def objSet {α : Type} : ObjMap α → String → α → ObjMap α
  | [], k, v => [(k, v)]
  | (k0, v0) :: rest, k, v =>
    if k = k0 then (k0, v) :: rest else (k0, v0) :: objSet rest k v

/-- `Object.assign(target, source)`: copy every property of the source onto
the target, source values winning on a key collision. -/
def objAssign {α : Type} (target source : ObjMap α) : ObjMap α :=
  source.foldl (fun acc kv => objSet acc kv.1 kv.2) target

theorem objGet_objSet_self {α : Type} (m : ObjMap α) (k : String) (v : α) :
    objGet (objSet m k v) k = some v := by
  induction m with
  | nil => simp [objSet, objGet]
  | cons hd tl ih =>
    obtain ⟨k0, v0⟩ := hd
    by_cases h : k = k0 <;> simp [objSet, objGet, h, ih]

theorem objGet_objSet_ne {α : Type} (m : ObjMap α) {k k' : String} (v : α)
    (h : k' ≠ k) : objGet (objSet m k v) k' = objGet m k' := by
  induction m with
  | nil => simp [objSet, objGet, h]
  | cons hd tl ih =>
    obtain ⟨k0, v0⟩ := hd
    by_cases h0 : k = k0
    · subst h0; simp [objSet, objGet, h]
    · by_cases h1 : k' = k0 <;> simp [objSet, objGet, h0, h1, ih]

theorem objGet_none_of_not_mem {α : Type} (m : ObjMap α) (k : String)
    (h : k ∉ m.map Prod.fst) : objGet m k = none := by
  induction m with
  | nil => rfl
  | cons hd tl ih =>
    obtain ⟨k0, v0⟩ := hd
    simp only [List.map_cons, List.mem_cons] at h
    push_neg at h
    simp [objGet, h.1, ih h.2]

theorem mem_keys_of_objGet {α : Type} {m : ObjMap α} {k : String} {v : α}
    (h : objGet m k = some v) : k ∈ m.map Prod.fst := by
  induction m with
  | nil => simp [objGet] at h
  | cons hd tl ih =>
    obtain ⟨k0, v0⟩ := hd
    by_cases h0 : k = k0
    · simp [h0]
    · simp only [objGet, h0, if_false, if_neg h0] at h
      simp [ih h, h0]

theorem objGet_objAssign {α : Type} (s : ObjMap α)
    (hs : (s.map Prod.fst).Nodup) (t : ObjMap α) (k : String) :
    objGet (objAssign t s) k = (objGet s k <|> objGet t k) := by
  induction s generalizing t with
  | nil => cases h : objGet t k <;> simp [objAssign, objGet, h, Option.orElse]
  | cons hd tl ih =>
    obtain ⟨k0, v0⟩ := hd
    simp only [List.map_cons, List.nodup_cons] at hs
    have step : objAssign t ((k0, v0) :: tl) = objAssign (objSet t k0 v0) tl := rfl
    rw [step, ih hs.2]
    by_cases h : k = k0
    · subst h
      have : objGet tl k = none := objGet_none_of_not_mem tl k hs.1
      simp [objGet, this, objGet_objSet_self, Option.orElse]
    · simp [objGet, h, objGet_objSet_ne t v0 h]

theorem opt_orElse_none {α : Type} (x : Option α) : (x <|> none) = x := by
  cases x <;> rfl

/-- Truthiness of an optional JavaScript string (`undefined` and `''` falsy). -/
def jsTruthy : Option String → Bool
  | none => false
  | some s => s != ""

/-- `className.replace(/\./g, '_')`. -/
def undot (s : String) : String :=
  String.mk (s.data.map fun ch => if ch = '.' then '_' else ch)

/-- The error outcomes of the generator, embedding the `throw new Error(...)`
sites of the source (plus `outOfFuel`, the embedding's rendering of a
computation that never completes: the source's unbounded recursion). -/
inductive GenErr where
  | unknownClass (name : String)       -- 'invalid class name: ...'
  | invalidDescriptor                  -- 'invalid classDescriptor: ...'
  | invalidPropName (name : String)    -- 'invalid propName: ...' / TypeError
  | missingPath                        -- path.resolve on an undefined relativePath
  | outOfFuel
deriving Repr, DecidableEq, Inhabited

/-- The `typeName` field of a property descriptor: a string, an array of
strings, or `undefined`. -/
inductive TypeNameV where
  | str (s : String)
  | arr (l : List String)
  | undef
deriving Repr, DecidableEq, Inhabited

/-- Which prop-types variant a descriptor is.  The source tests
`prop instanceof Types.ThreeType || ... InitializedThreeType ||
... ThreeTypeArray || ... ThreeTypeDict`; every non-referencing variant is
embedded as `plain`. -/
inductive RefKind where
  | threeType
  | initializedThreeType
  | threeTypeArray
  | threeTypeDict
  | plain
deriving Repr, DecidableEq, Inhabited

/-- A property descriptor, opaque beyond its capability surface: whether (and
whom) it references, and the accessor methods the wrapper writers call
(`getJSPropertyValue`, `getPropArrayName`, `getPropertyConverterFn`,
`getPropertyAssignmentFn`, `serializer`, `enumTypeName`, `getTraitlet`,
`getPythonDefaultValue`), embedded as data fields. -/
structure PropDesc where
  kind : RefKind := RefKind.plain
  typeName : TypeNameV := TypeNameV.undef
  jsPropertyValue : String := "null"
  propArrayName : Option String := none
  propertyConverterFn : Option String := none
  propertyAssignmentFn : Option String := none
  serializer : Option String := none
  enumTypeName : Option String := none
  traitlet : String := ""
  pythonDefaultValue : String := "None"
deriving Repr, DecidableEq, Inhabited

/-- The `instanceof` test of `processDependencies`. -/
def isThreeRef (p : PropDesc) : Bool := p.kind != RefKind.plain

/-- One entry of the external class-configuration table.  Absent fields are
`none` (JavaScript `undefined`). -/
structure ClassCfg where
  superClass : Option String := none
  relativePath : Option String := none
  properties : Option (ObjMap PropDesc) := none
  dependencies : Option (List String) := none
  constructorArgs : Option (List String) := none
  propsDefinedByThree : Option (List String) := none
deriving Repr, DecidableEq, Inhabited

/-- The Config Store: the `classConfigs` object.  Its distinguished
`_defaults` record is kept as a separate field of the embedding. -/
structure Store where
  entries : ObjMap ClassCfg
  defaults : ClassCfg
deriving Repr, DecidableEq, Inhabited

/-- The record `getClassConfig` returns: the class's own fields with
`_.defaults(result, classConfigs._defaults)` applied, plus the accumulated
`allProperties` and `propsDefinedByThree`. -/
structure ResolvedCfg where
  superClass : Option String
  relativePath : Option String
  properties : Option (ObjMap PropDesc)
  dependencies : Option (List String)
  constructorArgs : Option (List String)
  propsDefinedByThree : List String
  allProperties : ObjMap PropDesc
deriving Repr, DecidableEq, Inhabited

/-- The merge step of `getClassConfig`: copy the class's record, concatenate
`propsDefinedByThree` (own list first, then the superclass's), overlay the
class's own `properties` onto the inherited `allProperties`, and fill every
still-undefined field from `classConfigs._defaults`. -/
def mergeCfg (st : Store) (curClass : ClassCfg)
    (inheritedAll : ObjMap PropDesc) (inheritedPdt : List String) : ResolvedCfg :=
  { superClass := curClass.superClass <|> st.defaults.superClass
    relativePath := curClass.relativePath <|> st.defaults.relativePath
    properties := curClass.properties <|> st.defaults.properties
    dependencies := curClass.dependencies <|> st.defaults.dependencies
    constructorArgs := curClass.constructorArgs <|> st.defaults.constructorArgs
    propsDefinedByThree := curClass.propsDefinedByThree.getD [] ++ inheritedPdt
    allProperties := objAssign inheritedAll (curClass.properties.getD []) }

/-- `getClassConfig`, fuel-indexed: the source recurses on
`curClass.superClass` with no cycle check whatsoever, so the embedding makes
the recursion depth explicit; `outOfFuel` at every fuel is the embedding of a
recursion that never completes (a stack overflow in Node). -/
def getClassConfigF (st : Store) : Nat → String → Except GenErr ResolvedCfg
  | 0, _ => Except.error GenErr.outOfFuel
  | fuel + 1, className0 =>
    let className := undot className0
    match objGet st.entries className with
    | none => Except.error (GenErr.unknownClass className)
    | some curClass =>
      if jsTruthy curClass.superClass ∧ curClass.superClass ≠ st.defaults.superClass then
        match getClassConfigF st fuel (curClass.superClass.getD "") with
        | Except.error e => Except.error e
        | Except.ok sup =>
          Except.ok (mergeCfg st curClass sup.allProperties sup.propsDefinedByThree)
      else Except.ok (mergeCfg st curClass [] [])

/-- `getClassConfig` at the canonical fuel: one more than the number of store
entries, enough for every acyclic superclass chain (a cyclic chain exhausts
any fuel; see `getClassConfig_cycle_unbounded`). -/
def getClassConfig (st : Store) (name : String) : Except GenErr ResolvedCfg :=
  getClassConfigF st (st.entries.length + 1) name

/-- A store whose superclass data forms the cycle A→B→A. -/
def cycStore : Store :=
  { entries := [("A", { superClass := some "B" }), ("B", { superClass := some "A" })]
    defaults := {} }

/-- C1: the source `getClassConfig` has no cycle detection at all: on the
cyclic store A→B→A, no recursion depth whatever completes the resolution of
`A` — the recursion is unbounded (in Node, a stack-overflow crash), and no
`ConfigCycle`-style failure is ever produced (the embedding's error type has
no such constructor because the source has no such `throw`). -/
theorem getClassConfig_cycle_unbounded :
    ∀ fuel, getClassConfigF cycStore fuel "A" = Except.error GenErr.outOfFuel := by
  have h : ∀ fuel,
      getClassConfigF cycStore fuel "A" = Except.error GenErr.outOfFuel ∧
      getClassConfigF cycStore fuel "B" = Except.error GenErr.outOfFuel := by
    intro fuel
    induction fuel with
    | zero => exact ⟨rfl, rfl⟩
    | succ n ih =>
      refine ⟨?_, ?_⟩
      · have hu : getClassConfigF cycStore (n + 1) "A" =
            (match getClassConfigF cycStore n "B" with
             | Except.error e => Except.error e
             | Except.ok sup =>
               Except.ok (mergeCfg cycStore { superClass := some "B" }
                 sup.allProperties sup.propsDefinedByThree)) := rfl
        rw [hu, ih.2]
      · have hu : getClassConfigF cycStore (n + 1) "B" =
            (match getClassConfigF cycStore n "A" with
             | Except.error e => Except.error e
             | Except.ok sup =>
               Except.ok (mergeCfg cycStore { superClass := some "A" }
                 sup.allProperties sup.propsDefinedByThree)) := rfl
        rw [hu, ih.1]
  exact fun fuel => (h fuel).1

/-- A store whose class `A` is present but names an absent superclass `B`. -/
def danglingStore : Store :=
  { entries := [("A", { superClass := some "B" })], defaults := {} }

/-- A descriptor that references no other class. -/
def plainProp : PropDesc := {}

/-- A descriptor referencing the single class `n` (a `ThreeType`). -/
def threeRefProp (n : String) : PropDesc :=
  { kind := RefKind.threeType, typeName := TypeNameV.str n }

/-- The spec's end-to-end example store: `Base` (root, property `color`),
`Shape` (superclass `Base`, property `radius`), `Ring` (superclass `Shape`,
property `innerRadius`, `relativePath` shared with `RingOutline`). -/
def ringStore : Store :=
  { entries :=
      [("Base", { relativePath := some "shapes/Base",
                  properties := some [("color", plainProp)] }),
       ("Shape", { superClass := some "Base", relativePath := some "shapes/Shape",
                   properties := some [("radius", plainProp)] }),
       ("Ring", { superClass := some "Shape", relativePath := some "shapes/Ring",
                  properties := some [("innerRadius", plainProp)] }),
       ("RingOutline", { superClass := some "Shape", relativePath := some "shapes/Ring" })]
    defaults := { relativePath := some "" } }

/-- The example store with one change: `Shape` additionally declares an own
property whose descriptor references `Base`, so that `Ring` *inherits* a
class-referencing property without declaring it. -/
def ringStore2 : Store :=
  { entries :=
      [("Base", { relativePath := some "shapes/Base",
                  properties := some [("color", plainProp)] }),
       ("Shape", { superClass := some "Base", relativePath := some "shapes/Shape",
                   properties := some [("radius", plainProp),
                                       ("base", threeRefProp "Base")] }),
       ("Ring", { superClass := some "Shape", relativePath := some "shapes/Ring",
                  properties := some [("innerRadius", plainProp)] }),
       ("RingOutline", { superClass := some "Shape", relativePath := some "shapes/Ring" })]
    defaults := { relativePath := some "" } }

/-- A superclass chain of the store that is fully resolvable in `d` steps:
every named class is present and the chain reaches the root sentinel (a falsy
`superClass` or one equal to the `_defaults` record's). -/
inductive ChainValid (st : Store) : String → Nat → Prop where
  | root (n : String) (c : ClassCfg) :
      objGet st.entries (undot n) = some c →
      ¬(jsTruthy c.superClass = true ∧ c.superClass ≠ st.defaults.superClass) →
      ChainValid st n 0
  | step (n s : String) (c : ClassCfg) (d : Nat) :
      objGet st.entries (undot n) = some c →
      c.superClass = some s →
      jsTruthy c.superClass = true →
      c.superClass ≠ st.defaults.superClass →
      ChainValid st s d →
      ChainValid st n (d + 1)

theorem getClassConfigF_absent (st : Store) (n : String) (fuel : Nat)
    (h : objGet st.entries (undot n) = none) :
    getClassConfigF st (fuel + 1) n = Except.error (GenErr.unknownClass (undot n)) := by
  simp only [getClassConfigF, h]

theorem getClassConfigF_chainValid (st : Store) (n : String) (d : Nat)
    (hch : ChainValid st n d) :
    ∀ fuel, d < fuel → ∃ cfg, getClassConfigF st fuel n = Except.ok cfg := by
  induction hch with
  | root n c hc hroot =>
    intro fuel hf
    obtain ⟨f, rfl⟩ : ∃ f, fuel = f + 1 := ⟨fuel - 1, by omega⟩
    refine ⟨mergeCfg st c [] [], ?_⟩
    simp only [getClassConfigF, hc]
    rw [if_neg hroot]
  | step n s c d hc hcs ht hne _ ih =>
    intro fuel hf
    obtain ⟨f, rfl⟩ : ∃ f, fuel = f + 1 := ⟨fuel - 1, by omega⟩
    obtain ⟨cfg', hrec⟩ := ih f (by omega)
    refine ⟨mergeCfg st c cfg'.allProperties cfg'.propsDefinedByThree, ?_⟩
    simp only [getClassConfigF, hc]
    rw [if_pos ⟨ht, hne⟩, hcs]
    simp only [Option.getD_some, hrec]

/-- C7 counterexample: in `danglingStore` the name `A` is present in the
Config Store, yet configuration resolution does not return a ResolvedConfig —
it fails with `UnknownClass` for the absent superclass `B`.  This refutes
"for every name present it returns a ResolvedConfig". -/
theorem present_class_resolution_failure :
    (objGet danglingStore.entries "A").isSome = true ∧
    getClassConfig danglingStore "A" = Except.error (GenErr.unknownClass "B") :=
  ⟨rfl, rfl⟩

/-- C7 (amended): a class name absent from the Config Store fails with
`UnknownClass` (never a default or partial configuration), and a present name
returns a ResolvedConfig provided its superclass chain is fully resolvable
(every named superclass present, chain reaching the root sentinel). -/
theorem unknown_class_error_behavior :
    (∀ (st : Store) (n : String) (fuel : Nat),
        objGet st.entries (undot n) = none →
        getClassConfigF st (fuel + 1) n = Except.error (GenErr.unknownClass (undot n))) ∧
    (∀ (st : Store) (n : String) (d : Nat),
        ChainValid st n d →
        ∀ fuel, d < fuel → ∃ cfg, getClassConfigF st fuel n = Except.ok cfg) :=
  ⟨getClassConfigF_absent, getClassConfigF_chainValid⟩

/-- C7 witness: the amended theorem at concrete inputs — `Zed` is absent from
`danglingStore` and errors; `Ring` has the valid chain Ring→Shape→Base in
`ringStore` and resolves. -/
theorem unknown_class_error_behavior_witness :
    getClassConfigF danglingStore 4 "Zed" = Except.error (GenErr.unknownClass "Zed") ∧
    ∃ cfg, getClassConfigF ringStore 4 "Ring" = Except.ok cfg := by
  constructor
  · exact unknown_class_error_behavior.1 danglingStore "Zed" 3 rfl
  · exact unknown_class_error_behavior.2 ringStore "Ring" 2
      (ChainValid.step "Ring" "Shape" _ 1 rfl rfl rfl (by decide)
        (ChainValid.step "Shape" "Base" _ 0 rfl rfl rfl (by decide)
          (ChainValid.root "Base" _ rfl (by decide))))
      4 (by omega)

theorem getClassConfigF_root_eval (st : Store) (a : String) (ca : ClassCfg)
    (hu : undot a = a) (ha : objGet st.entries a = some ca)
    (hroot : ¬(jsTruthy ca.superClass = true ∧ ca.superClass ≠ st.defaults.superClass)) :
    ∀ f, getClassConfigF st (f + 1) a = Except.ok (mergeCfg st ca [] []) := by
  intro f
  simp only [getClassConfigF, hu, ha]
  rw [if_neg hroot]

theorem getClassConfigF_step_eval (st : Store) (c s : String) (cc : ClassCfg)
    (hu : undot c = c) (hc : objGet st.entries c = some cc)
    (hcs : cc.superClass = some s)
    (ht : jsTruthy cc.superClass = true) (hne : cc.superClass ≠ st.defaults.superClass)
    (sup : ResolvedCfg) (f : Nat)
    (hrec : getClassConfigF st f s = Except.ok sup) :
    getClassConfigF st (f + 1) c =
      Except.ok (mergeCfg st cc sup.allProperties sup.propsDefinedByThree) := by
  simp only [getClassConfigF, hu, hc]
  rw [if_pos ⟨ht, hne⟩, hcs]
  simp only [Option.getD_some, hrec]

theorem three_distinct_le_length {α : Type} [DecidableEq α] (l : List α)
    {x y z : α} (hx : x ∈ l) (hy : y ∈ l) (hz : z ∈ l)
    (hxy : x ≠ y) (hxz : x ≠ z) (hyz : y ≠ z) : 3 ≤ l.length := by
  have hsub : ({x, y, z} : Finset α) ⊆ l.toFinset := by
    intro w hw
    simp only [Finset.mem_insert, Finset.mem_singleton] at hw
    rcases hw with rfl | rfl | rfl <;> simpa [List.mem_toFinset]
  have hcard : ({x, y, z} : Finset α).card = 3 := by
    rw [Finset.card_insert_of_not_mem (by simp [hxy, hxz]),
        Finset.card_insert_of_not_mem (by simp [hyz]), Finset.card_singleton]
  calc 3 = ({x, y, z} : Finset α).card := hcard.symm
    _ ≤ l.toFinset.card := Finset.card_le_card hsub
    _ ≤ l.length := l.toFinset_card_le

/-- C2: for a class `c` with superclass chain c→b→a terminating at the root
sentinel, resolution succeeds and `allProperties` is exactly the layered
overlay: an own property of `c` wins, else `b`'s, else `a`'s — whole-descriptor
replacement with the most-derived definition preferred, and every
non-shadowed ancestor property present. -/
theorem allProperties_chain_shadowing
    (st : Store) (c b a : String) (cc cb ca : ClassCfg)
    (huc : undot c = c) (hub : undot b = b) (hua : undot a = a)
    (hc : objGet st.entries c = some cc)
    (hb : objGet st.entries b = some cb)
    (ha : objGet st.entries a = some ca)
    (hcs : cc.superClass = some b) (hbs : cb.superClass = some a)
    (htc : jsTruthy cc.superClass = true) (hnec : cc.superClass ≠ st.defaults.superClass)
    (htb : jsTruthy cb.superClass = true) (hneb : cb.superClass ≠ st.defaults.superClass)
    (haroot : ¬(jsTruthy ca.superClass = true ∧ ca.superClass ≠ st.defaults.superClass))
    (hcb : c ≠ b) (hca : c ≠ a) (hba : b ≠ a)
    (hnc : ((cc.properties.getD []).map Prod.fst).Nodup)
    (hnb : ((cb.properties.getD []).map Prod.fst).Nodup)
    (hna : ((ca.properties.getD []).map Prod.fst).Nodup) :
    ∃ cfg, getClassConfig st c = Except.ok cfg ∧ ∀ k,
      objGet cfg.allProperties k =
        (objGet (cc.properties.getD []) k <|>
          (objGet (cb.properties.getD []) k <|> objGet (ca.properties.getD []) k)) := by
  have h3 : 3 ≤ st.entries.length := by
    have := three_distinct_le_length (st.entries.map Prod.fst)
      (mem_keys_of_objGet hc) (mem_keys_of_objGet hb) (mem_keys_of_objGet ha)
      hcb hca hba
    simpa using this
  obtain ⟨m, hm⟩ : ∃ m, st.entries.length + 1 = m + 3 :=
    ⟨st.entries.length - 2, by omega⟩
  have ea := getClassConfigF_root_eval st a ca hua ha haroot m
  have eb := getClassConfigF_step_eval st b a cb hub hb hbs htb hneb _ _ ea
  have ec := getClassConfigF_step_eval st c b cc huc hc hcs htc hnec _ _ eb
  refine ⟨_, by rw [getClassConfig, hm]; exact ec, ?_⟩
  intro k
  show objGet (objAssign (mergeCfg st cb (mergeCfg st ca [] []).allProperties
      (mergeCfg st ca [] []).propsDefinedByThree).allProperties
      (cc.properties.getD [])) k = _
  rw [objGet_objAssign _ hnc]
  show (objGet (cc.properties.getD []) k <|>
      objGet (objAssign (objAssign [] (ca.properties.getD []))
        (cb.properties.getD [])) k) = _
  rw [objGet_objAssign _ hnb, objGet_objAssign _ hna]
  show (objGet (cc.properties.getD []) k <|>
      (objGet (cb.properties.getD []) k <|>
        (objGet (ca.properties.getD []) k <|> none))) = _
  rw [opt_orElse_none]

/-- C2 witness: the chain theorem at the spec's concrete `ringStore`:
resolving `Ring` succeeds, and `allProperties` contains the inherited `color`
(from `Base`) and `radius` (from `Shape`) alongside the own `innerRadius`. -/
theorem allProperties_chain_shadowing_witness :
    ∃ cfg, getClassConfig ringStore "Ring" = Except.ok cfg ∧
      objGet cfg.allProperties "color" = some plainProp ∧
      objGet cfg.allProperties "radius" = some plainProp ∧
      objGet cfg.allProperties "innerRadius" = some plainProp := by
  obtain ⟨cfg, h1, h2⟩ := allProperties_chain_shadowing ringStore
    "Ring" "Shape" "Base" _ _ _ rfl rfl rfl rfl rfl rfl rfl rfl rfl
    (by decide) rfl (by decide) (by decide) (by decide) (by decide) (by decide)
    (by decide) (by decide) (by decide)
  exact ⟨cfg, h1, (h2 "color").trans rfl, (h2 "radius").trans rfl,
    (h2 "innerRadius").trans rfl⟩

/-- `String.mk` shorthand for computed character lists. -/
def chStr (l : List Char) : String := String.mk l

/-- Prefix test on character lists (structurally recursive so that concrete
path computations reduce inside the kernel). -/
def chPrefix : List Char → List Char → Bool
  | [], _ => true
  | _ :: _, [] => false
  | x :: xs, y :: ys => if x = y then chPrefix xs ys else false

def strStartsWith (s p : String) : Bool := chPrefix p.data s.data

def strEndsWith (s p : String) : Bool := chPrefix p.data.reverse s.data.reverse

def strLength (s : String) : Nat := s.data.length

def strDropRight (s : String) (n : Nat) : String :=
  chStr (s.data.take (s.data.length - n))

/-- Split on a (non-empty) separator pattern, scanning left to right over a
reversed buffer; agrees with JavaScript `String.prototype.split` with a
string separator. -/
def splitSepAux (pat : List Char) : List Char → List Char → List (List Char)
  | [], buf => [buf.reverse]
  | x :: xs, buf =>
    let buf2 := x :: buf
    if chPrefix pat.reverse buf2 then
      (buf2.drop pat.length).reverse :: splitSepAux pat xs []
    else splitSepAux pat xs buf2

def strSplitOn (s pat : String) : List String :=
  match pat.data with
  | [] => [s]
  | p => (splitSepAux p s.data []).map chStr

def strIntercalate (sep : String) : List String → String
  | [] => ""
  | [x] => x
  | x :: xs => x ++ sep ++ strIntercalate sep xs

/-- Split a path into its segments (empty segments discarded; the source's
`pathSep` also handles backslashes, which the embedding does not produce). -/
def splitPath (s : String) : List String :=
  (strSplitOn s "/").filter (fun seg => seg ≠ "")

/-- Node-style segment normalization: `.` segments vanish, `..` pops. -/
def normSegs (l : List String) : List String :=
  l.foldl (fun acc seg =>
    if seg = "." then acc
    else if seg = ".." then acc.dropLast
    else acc ++ [seg]) []

def joinSegs (l : List String) : String := strIntercalate "/" l

/-- `path.resolve(base, rel)` for an absolute `base` and relative `rel`. -/
def pathResolve (base rel : String) : String :=
  "/" ++ joinSegs (normSegs (splitPath base ++ splitPath rel))

/-- Drop the longest common prefix of two segment lists. -/
def dropCommon : List String → List String → List String × List String
  | a :: as, b :: bs => if a = b then dropCommon as bs else (a :: as, b :: bs)
  | as, bs => (as, bs)

/-- `path.relative(fromDir, toPath)` for two absolute paths. -/
def pathRelative (fromDir toPath : String) : String :=
  let p := dropCommon (normSegs (splitPath fromDir)) (normSegs (splitPath toPath))
  joinSegs (p.1.map (fun _ => "..") ++ p.2)

/-- `path.join(a, b)` (normalizes, keeps the result relative unless `a` is
absolute). -/
def pathJoin (a b : String) : String :=
  (if strStartsWith a "/" then "/" else "") ++
    joinSegs (normSegs (splitPath a ++ splitPath b))

/-- `path.dirname`. -/
def pathDirname (s : String) : String :=
  let pre := if strStartsWith s "/" then "/" else ""
  let segs := (splitPath s).dropLast
  if segs = [] then (if pre = "/" then "/" else ".") else pre ++ joinSegs segs

/-- `path.basename(p, ext)`: the last segment, with the extension stripped
unless the whole segment equals the extension. -/
def pathBasename (s ext : String) : String :=
  let base := (splitPath s).getLastD s
  if strEndsWith base ext ∧ base ≠ ext then strDropRight base (strLength ext)
  else base

/-- Substring test (`/pat/.test(s)` for a literal pattern). -/
def strContains (s pat : String) : Bool := (strSplitOn s pat).length != 1

/-- JavaScript `s.replace(pat, repl)` with a string pattern: replaces only the
first occurrence. -/
def jsReplaceFirst (s pat repl : String) : String :=
  match strSplitOn s pat with
  | [] => s
  | [_] => s
  | a :: b :: rest => a ++ repl ++ strIntercalate pat (b :: rest)

/-- `relativePathToPythonImportPath` (lines 170–202 of the source). -/
def relativePathToPythonImportPath (relativePath : String) : String :=
  let tokens := strSplitOn relativePath "/"
  let firstToken := tokens.headD ""
  let startState : List String × String :=
    if firstToken = "." then (tokens.drop 1, "")
    else if firstToken = ".." then (tokens.drop 1, ".")
    else (tokens, "")
  let folded := startState.1.foldl (fun (acc : String × Bool) token =>
      if token = "." then acc
      else if token = ".." then (acc.1 ++ ".", acc.2)
      else (acc.1 ++ "." ++ token, true)) (startState.2, false)
  if !folded.2 then folded.1 ++ "." else folded.1


/-- A left fold whose step may throw, stopping at the first error (the
embedding of `_.reduce` / `.forEach` bodies that can `throw`). -/
def exceptFoldl {α β : Type} (f : β → α → Except GenErr β) :
    List α → β → Except GenErr β
  | [], acc => Except.ok acc
  | x :: xs, acc =>
    match f acc x with
    | Except.error e => Except.error e
    | Except.ok acc' => exceptFoldl f xs acc'

/-- A list map whose element function may throw (the embedding of `.map` with
a throwing callback). -/
def exceptMapM {α β : Type} (f : α → Except GenErr β) :
    List α → Except GenErr (List β)
  | [] => Except.ok []
  | x :: xs =>
    match f x with
    | Except.error e => Except.error e
    | Except.ok y =>
      match exceptMapM f xs with
      | Except.error e => Except.error e
      | Except.ok ys => Except.ok (y :: ys)

/-- The result record of `JavascriptWrapper.getRequireInfoFromClassDescriptor`.
`resolvedFilePath` records the source's local `absPath` variable after the
override-existence branch (the file the reference actually points at); the
other fields are exactly the properties the source sets on `result`. -/
structure JsRequireInfo where
  className : String
  relativePath : String
  modelName : String
  absolutePath : String
  resolvedFilePath : String
  requirePath : String
deriving Repr, DecidableEq, Inhabited

/-- The result record of `PythonWrapper.getRequireInfoFromClassDescriptor`.
In the Python variant `absolutePath` itself is mutated to the chosen module
location (`+ '_autogen'` when no override file exists). -/
structure PyRequireInfo where
  className : String
  relativePath : String
  absolutePath : String
  requirePath : String
  pyRelativePath : String
deriving Repr, DecidableEq, Inhabited

/-- The shared first half of both `getRequireInfoFromClassDescriptor`
methods: a string descriptor is either a class name present in the Config
Store (whose resolved `relativePath` is then used) or a bare path.  A
non-string descriptor throws in the source; the embedding's argument type is
`String`, so that branch cannot arise.  An undefined `relativePath` would
make `path.resolve` throw (`missingPath`). -/
def descriptorNamePath (st : Store) (classDescriptor : String) :
    Except GenErr (String × String) :=
  if (objGet st.entries classDescriptor).isSome then
    match getClassConfig st classDescriptor with
    | Except.error e => Except.error e
    | Except.ok config =>
      match config.relativePath with
      | some rp => Except.ok (classDescriptor, rp)
      | none => Except.error GenErr.missingPath
  else Except.ok (pathBasename classDescriptor ".js", classDescriptor)

/-- `JavascriptWrapper.getRequireInfoFromClassDescriptor`. -/
def jsGetRequireInfo (st : Store) (fs : String → Bool) (srcDir destDir : String)
    (classDescriptor : String) : Except GenErr JsRequireInfo :=
  match descriptorNamePath st classDescriptor with
  | Except.error e => Except.error e
  | Except.ok (cn, rp) =>
    let absolutePath := pathResolve srcDir rp
    let absPath :=
      if fs (absolutePath ++ ".js") then absolutePath ++ ".js"
      else absolutePath ++ ".autogen.js"
    let rq := pathRelative destDir absPath
    let requirePath := if strStartsWith rq "." then rq else "./" ++ rq
    Except.ok { className := cn, relativePath := rp, modelName := cn ++ "Model",
                absolutePath := absolutePath, resolvedFilePath := absPath,
                requirePath := requirePath }

/-- `PythonWrapper.getRequireInfoFromClassDescriptor`. -/
def pyGetRequireInfo (st : Store) (fs : String → Bool)
    (pySrcDir destDirAbsolutePath : String)
    (classDescriptor : String) : Except GenErr PyRequireInfo :=
  match descriptorNamePath st classDescriptor with
  | Except.error e => Except.error e
  | Except.ok (cn, rp) =>
    let abs0 := pathResolve pySrcDir rp
    let absolutePath := if fs (abs0 ++ ".py") then abs0 else abs0 ++ "_autogen"
    let requirePath := pathRelative destDirAbsolutePath absolutePath
    Except.ok { className := cn, relativePath := rp, absolutePath := absolutePath,
                requirePath := requirePath,
                pyRelativePath := relativePathToPythonImportPath requirePath }

/-- The conventional hand-written override location of a class in the
JavaScript output tree. -/
def jsOverrideLoc (srcDir rp : String) : String := pathResolve srcDir rp ++ ".js"

/-- The conventional generated-artifact location in the JavaScript tree. -/
def jsAutogenLoc (srcDir rp : String) : String :=
  pathResolve srcDir rp ++ ".autogen.js"

/-- The conventional override file location in the Python output tree. -/
def pyOverrideLoc (pySrcDir rp : String) : String :=
  pathResolve pySrcDir rp ++ ".py"

/-- The override's module location in the Python tree (no extension). -/
def pyModuleLoc (pySrcDir rp : String) : String := pathResolve pySrcDir rp

/-- The generated artifact's module location in the Python tree. -/
def pyAutogenModule (pySrcDir rp : String) : String :=
  pathResolve pySrcDir rp ++ "_autogen"

theorem descriptorNamePath_store (st : Store) (Y rp : String) (rcY : ResolvedCfg)
    (h1 : (objGet st.entries Y).isSome = true)
    (h2 : getClassConfig st Y = Except.ok rcY)
    (h3 : rcY.relativePath = some rp) :
    descriptorNamePath st Y = Except.ok (Y, rp) := by
  unfold descriptorNamePath
  rw [h1, if_pos rfl, h2]
  simp only [h3]

theorem descriptorNamePath_path (st : Store) (d : String)
    (h1 : objGet st.entries d = none) :
    descriptorNamePath st d = Except.ok (pathBasename d ".js", d) := by
  unfold descriptorNamePath
  rw [h1]
  rfl

theorem jsGetRequireInfo_of_namePath (st : Store) (fs : String → Bool)
    (srcDir destDir desc cn rp : String)
    (h : descriptorNamePath st desc = Except.ok (cn, rp)) :
    jsGetRequireInfo st fs srcDir destDir desc = Except.ok
      { className := cn, relativePath := rp, modelName := cn ++ "Model",
        absolutePath := pathResolve srcDir rp,
        resolvedFilePath :=
          if fs (jsOverrideLoc srcDir rp) then jsOverrideLoc srcDir rp
          else jsAutogenLoc srcDir rp,
        requirePath :=
          let rq := pathRelative destDir
            (if fs (jsOverrideLoc srcDir rp) then jsOverrideLoc srcDir rp
             else jsAutogenLoc srcDir rp)
          if strStartsWith rq "." then rq else "./" ++ rq } := by
  unfold jsGetRequireInfo
  rw [h]
  rfl

theorem pyGetRequireInfo_of_namePath (st : Store) (fs : String → Bool)
    (pySrcDir destDir desc cn rp : String)
    (h : descriptorNamePath st desc = Except.ok (cn, rp)) :
    pyGetRequireInfo st fs pySrcDir destDir desc = Except.ok
      { className := cn, relativePath := rp,
        absolutePath :=
          if fs (pyOverrideLoc pySrcDir rp) then pyModuleLoc pySrcDir rp
          else pyAutogenModule pySrcDir rp,
        requirePath := pathRelative destDir
          (if fs (pyOverrideLoc pySrcDir rp) then pyModuleLoc pySrcDir rp
           else pyAutogenModule pySrcDir rp),
        pyRelativePath := relativePathToPythonImportPath (pathRelative destDir
          (if fs (pyOverrideLoc pySrcDir rp) then pyModuleLoc pySrcDir rp
           else pyAutogenModule pySrcDir rp)) } := by
  unfold pyGetRequireInfo
  rw [h]
  rfl

/-- The Python wrappers' rename: a resolved reference whose class name is
`Three` is renamed to `ThreeWidget` (`if (... .className === 'Three')
... = 'ThreeWidget'`). -/
def pyRenameThree (w : PyRequireInfo) : PyRequireInfo :=
  if w.className = "Three" then { w with className := "ThreeWidget" } else w

theorem pyRenameThree_absolutePath (w : PyRequireInfo) :
    (pyRenameThree w).absolutePath = w.absolutePath := by
  unfold pyRenameThree
  split <;> rfl

theorem pyRenameThree_relativePath (w : PyRequireInfo) :
    (pyRenameThree w).relativePath = w.relativePath := by
  unfold pyRenameThree
  split <;> rfl

/-- The shared body of the explicit-dependency `_.reduce` and the array
branch of `processDependencies` (JavaScript wrapper): resolve each name and
assign it into the mapping under its own name. -/
def jsInsertFold (st : Store) (fs : String → Bool) (srcDir destDir : String)
    (l : List String) (acc : ObjMap JsRequireInfo) :
    Except GenErr (ObjMap JsRequireInfo) :=
  exceptFoldl (fun acc2 tn =>
    match jsGetRequireInfo st fs srcDir destDir tn with
    | Except.error e => Except.error e
    | Except.ok info => Except.ok (objSet acc2 tn info)) l acc

/-- Same for the Python wrapper (no rename in these two branches). -/
def pyInsertFold (st : Store) (fs : String → Bool) (pySrcDir destDir : String)
    (l : List String) (acc : ObjMap PyRequireInfo) :
    Except GenErr (ObjMap PyRequireInfo) :=
  exceptFoldl (fun acc2 tn =>
    match pyGetRequireInfo st fs pySrcDir destDir tn with
    | Except.error e => Except.error e
    | Except.ok info => Except.ok (objSet acc2 tn info)) l acc

/-- One property's contribution to the JavaScript dependency mapping: only a
descriptor of a referencing kind whose `typeName` is not the self-reference
`'this'` contributes; a falsy (empty) string `typeName` falls back to
`'./_base/Three'`; an array contributes one entry per element; an undefined
`typeName` contributes nothing. -/
def jsDepStep (st : Store) (fs : String → Bool) (srcDir destDir : String)
    (acc : ObjMap JsRequireInfo) (p : PropDesc) :
    Except GenErr (ObjMap JsRequireInfo) :=
  if isThreeRef p then
    if p.typeName ≠ TypeNameV.str "this" then
      match p.typeName with
      | TypeNameV.str s =>
        let typeName := if s = "" then "./_base/Three" else s
        match jsGetRequireInfo st fs srcDir destDir typeName with
        | Except.error e => Except.error e
        | Except.ok info => Except.ok (objSet acc typeName info)
      | TypeNameV.arr l => jsInsertFold st fs srcDir destDir l acc
      | TypeNameV.undef => Except.ok acc
    else Except.ok acc
  else Except.ok acc

/-- The Python variant: in the single-string branch the inserted entry is
renamed when its class name is `Three` (`result[typeName].className =
'ThreeWidget'`); the array branch and the explicit-dependency branch are not
renamed. -/
def pyDepStep (st : Store) (fs : String → Bool) (pySrcDir destDir : String)
    (acc : ObjMap PyRequireInfo) (p : PropDesc) :
    Except GenErr (ObjMap PyRequireInfo) :=
  if isThreeRef p then
    if p.typeName ≠ TypeNameV.str "this" then
      match p.typeName with
      | TypeNameV.str s =>
        let typeName := if s = "" then "./_base/Three" else s
        match pyGetRequireInfo st fs pySrcDir destDir typeName with
        | Except.error e => Except.error e
        | Except.ok info => Except.ok (objSet acc typeName (pyRenameThree info))
      | TypeNameV.arr l => pyInsertFold st fs pySrcDir destDir l acc
      | TypeNameV.undef => Except.ok acc
    else Except.ok acc
  else Except.ok acc

/-- `JavascriptWrapper.processDependencies`: the explicitly listed
dependencies first, then the dependencies inferred from the class's **own**
declared properties (`this.config.properties`, not `allProperties`). -/
def jsProcessDependencies (st : Store) (fs : String → Bool)
    (srcDir destDir : String) (config : ResolvedCfg) :
    Except GenErr (ObjMap JsRequireInfo) :=
  match jsInsertFold st fs srcDir destDir (config.dependencies.getD []) [] with
  | Except.error e => Except.error e
  | Except.ok deps =>
    exceptFoldl (fun acc kv => jsDepStep st fs srcDir destDir acc kv.2)
      (config.properties.getD []) deps

/-- `PythonWrapper.processDependencies`. -/
def pyProcessDependencies (st : Store) (fs : String → Bool)
    (pySrcDir destDir : String) (config : ResolvedCfg) :
    Except GenErr (ObjMap PyRequireInfo) :=
  match pyInsertFold st fs pySrcDir destDir (config.dependencies.getD []) [] with
  | Except.error e => Except.error e
  | Except.ok deps =>
    exceptFoldl (fun acc kv => pyDepStep st fs pySrcDir destDir acc kv.2)
      (config.properties.getD []) deps

/-- `JavascriptWrapper.processSuperClass`. -/
def jsProcessSuperClass (st : Store) (fs : String → Bool)
    (srcDir destDir : String) (config : ResolvedCfg) :
    Except GenErr JsRequireInfo :=
  match config.superClass with
  | some s => jsGetRequireInfo st fs srcDir destDir s
  | none => Except.error GenErr.invalidDescriptor

/-- `PythonWrapper.processSuperClass` (with the `Three` → `ThreeWidget`
rename). -/
def pyProcessSuperClass (st : Store) (fs : String → Bool)
    (pySrcDir destDir : String) (config : ResolvedCfg) :
    Except GenErr PyRequireInfo :=
  match config.superClass with
  | some s =>
    match pyGetRequireInfo st fs pySrcDir destDir s with
    | Except.error e => Except.error e
    | Except.ok w => Except.ok (pyRenameThree w)
  | none => Except.error GenErr.invalidDescriptor

/-- A descriptor contributes an entry under key `K` to the dependency
mapping: it is of a referencing kind, its target is not `'this'`, and `K` is
the (fallback-applied) string target or one of the array targets. -/
def propRefersTo (p : PropDesc) (K : String) : Prop :=
  isThreeRef p = true ∧ p.typeName ≠ TypeNameV.str "this" ∧
    ((∃ s, p.typeName = TypeNameV.str s ∧
        K = (if s = "" then "./_base/Three" else s)) ∨
     (∃ l, p.typeName = TypeNameV.arr l ∧ K ∈ l))

theorem exceptFoldl_inv {α β : Type} (P : β → Prop)
    (f : β → α → Except GenErr β)
    (hstep : ∀ acc x acc', f acc x = Except.ok acc' → P acc → P acc') :
    ∀ (l : List α) (acc : β) (m : β),
      exceptFoldl f l acc = Except.ok m → P acc → P m := by
  intro l
  induction l with
  | nil =>
    intro acc m h hp
    cases h
    exact hp
  | cons x xs ih =>
    intro acc m h hp
    unfold exceptFoldl at h
    cases hx : f acc x with
    | error e => rw [hx] at h; cases h
    | ok acc' =>
      rw [hx] at h
      exact ih acc' m h (hstep acc x acc' hx hp)

theorem exceptFoldl_hits {α β : Type} (P : β → Prop)
    (f : β → α → Except GenErr β)
    (hstep : ∀ acc x acc', f acc x = Except.ok acc' → P acc → P acc')
    (x : α) (hx : ∀ acc acc', f acc x = Except.ok acc' → P acc') :
    ∀ (l : List α) (acc : β) (m : β),
      x ∈ l → exceptFoldl f l acc = Except.ok m → P m := by
  intro l
  induction l with
  | nil => intro acc m h; cases h
  | cons y ys ih =>
    intro acc m hmem h
    unfold exceptFoldl at h
    cases hy : f acc y with
    | error e => rw [hy] at h; cases h
    | ok acc' =>
      rw [hy] at h
      rcases List.mem_cons.mp hmem with rfl | hmem'
      · exact exceptFoldl_inv P f hstep ys acc' m h (hx acc acc' hy)
      · exact ih acc' m hmem' h

/-- Every value in the JavaScript dependency mapping is exactly the
resolution of its own key. -/
def GoodJs (st : Store) (fs : String → Bool) (srcDir destDir : String)
    (m : ObjMap JsRequireInfo) : Prop :=
  ∀ k v, objGet m k = some v →
    jsGetRequireInfo st fs srcDir destDir k = Except.ok v

/-- Every value in the Python dependency mapping is the resolution of its own
key, possibly with the `Three` → `ThreeWidget` rename applied. -/
def GoodPy (st : Store) (fs : String → Bool) (pySrcDir destDir : String)
    (m : ObjMap PyRequireInfo) : Prop :=
  ∀ k v, objGet m k = some v →
    ∃ w, pyGetRequireInfo st fs pySrcDir destDir k = Except.ok w ∧
      (v = w ∨ v = pyRenameThree w)

theorem goodJs_objSet (st : Store) (fs : String → Bool) (srcDir destDir : String)
    (m : ObjMap JsRequireInfo) (k : String) (i : JsRequireInfo)
    (hg : GoodJs st fs srcDir destDir m)
    (hi : jsGetRequireInfo st fs srcDir destDir k = Except.ok i) :
    GoodJs st fs srcDir destDir (objSet m k i) := by
  intro k' v' h'
  by_cases hk : k' = k
  · subst hk
    rw [objGet_objSet_self] at h'
    cases h'
    exact hi
  · rw [objGet_objSet_ne m i hk] at h'
    exact hg k' v' h'

theorem goodPy_objSet (st : Store) (fs : String → Bool) (pySrcDir destDir : String)
    (m : ObjMap PyRequireInfo) (k : String) (i w0 : PyRequireInfo)
    (hg : GoodPy st fs pySrcDir destDir m)
    (hw : pyGetRequireInfo st fs pySrcDir destDir k = Except.ok w0)
    (hi : i = w0 ∨ i = pyRenameThree w0) :
    GoodPy st fs pySrcDir destDir (objSet m k i) := by
  intro k' v' h'
  by_cases hk : k' = k
  · subst hk
    rw [objGet_objSet_self] at h'
    cases h'
    exact ⟨w0, hw, hi⟩
  · rw [objGet_objSet_ne m i hk] at h'
    exact hg k' v' h'

theorem isSome_objSet {α : Type} (m : ObjMap α) (k K : String) (v : α)
    (h : (objGet m K).isSome = true) :
    (objGet (objSet m k v) K).isSome = true := by
  by_cases hk : K = k
  · subst hk; rw [objGet_objSet_self]; rfl
  · rw [objGet_objSet_ne m v hk]; exact h

theorem jsInsertFold_good (st : Store) (fs : String → Bool)
    (srcDir destDir : String) (l : List String)
    (acc m : ObjMap JsRequireInfo)
    (h : jsInsertFold st fs srcDir destDir l acc = Except.ok m)
    (hg : GoodJs st fs srcDir destDir acc) : GoodJs st fs srcDir destDir m := by
  refine exceptFoldl_inv _ _ ?_ l acc m h hg
  intro acc2 tn acc' hstep hg2
  cases htn : jsGetRequireInfo st fs srcDir destDir tn with
  | error e => rw [htn] at hstep; cases hstep
  | ok info =>
    rw [htn] at hstep
    cases hstep
    exact goodJs_objSet st fs srcDir destDir acc2 tn info hg2 htn

theorem pyInsertFold_good (st : Store) (fs : String → Bool)
    (pySrcDir destDir : String) (l : List String)
    (acc m : ObjMap PyRequireInfo)
    (h : pyInsertFold st fs pySrcDir destDir l acc = Except.ok m)
    (hg : GoodPy st fs pySrcDir destDir acc) : GoodPy st fs pySrcDir destDir m := by
  refine exceptFoldl_inv _ _ ?_ l acc m h hg
  intro acc2 tn acc' hstep hg2
  cases htn : pyGetRequireInfo st fs pySrcDir destDir tn with
  | error e => rw [htn] at hstep; cases hstep
  | ok info =>
    rw [htn] at hstep
    cases hstep
    exact goodPy_objSet st fs pySrcDir destDir acc2 tn info info hg2 htn (Or.inl rfl)

theorem jsInsertFold_isSome (st : Store) (fs : String → Bool)
    (srcDir destDir : String) (l : List String) (K : String)
    (acc m : ObjMap JsRequireInfo)
    (h : jsInsertFold st fs srcDir destDir l acc = Except.ok m)
    (hs : (objGet acc K).isSome = true) : (objGet m K).isSome = true := by
  refine exceptFoldl_inv (fun mm => (objGet mm K).isSome = true) _ ?_ l acc m h hs
  intro acc2 tn acc' hstep hs2
  cases htn : jsGetRequireInfo st fs srcDir destDir tn with
  | error e => rw [htn] at hstep; cases hstep
  | ok info =>
    rw [htn] at hstep
    cases hstep
    exact isSome_objSet acc2 tn K info hs2

theorem pyInsertFold_isSome (st : Store) (fs : String → Bool)
    (pySrcDir destDir : String) (l : List String) (K : String)
    (acc m : ObjMap PyRequireInfo)
    (h : pyInsertFold st fs pySrcDir destDir l acc = Except.ok m)
    (hs : (objGet acc K).isSome = true) : (objGet m K).isSome = true := by
  refine exceptFoldl_inv (fun mm => (objGet mm K).isSome = true) _ ?_ l acc m h hs
  intro acc2 tn acc' hstep hs2
  cases htn : pyGetRequireInfo st fs pySrcDir destDir tn with
  | error e => rw [htn] at hstep; cases hstep
  | ok info =>
    rw [htn] at hstep
    cases hstep
    exact isSome_objSet acc2 tn K info hs2

theorem jsInsertFold_hits (st : Store) (fs : String → Bool)
    (srcDir destDir : String) (l : List String) (K : String)
    (acc m : ObjMap JsRequireInfo) (hmem : K ∈ l)
    (h : jsInsertFold st fs srcDir destDir l acc = Except.ok m) :
    (objGet m K).isSome = true := by
  refine exceptFoldl_hits (fun mm => (objGet mm K).isSome = true) _ ?_ K ?_ l acc m hmem h
  · intro acc2 tn acc' hstep hs2
    cases htn : jsGetRequireInfo st fs srcDir destDir tn with
    | error e => rw [htn] at hstep; cases hstep
    | ok info =>
      rw [htn] at hstep
      cases hstep
      exact isSome_objSet acc2 tn K info hs2
  · intro acc2 acc' hstep
    cases htn : jsGetRequireInfo st fs srcDir destDir K with
    | error e => rw [htn] at hstep; cases hstep
    | ok info =>
      rw [htn] at hstep
      cases hstep
      rw [objGet_objSet_self]
      rfl

theorem pyInsertFold_hits (st : Store) (fs : String → Bool)
    (pySrcDir destDir : String) (l : List String) (K : String)
    (acc m : ObjMap PyRequireInfo) (hmem : K ∈ l)
    (h : pyInsertFold st fs pySrcDir destDir l acc = Except.ok m) :
    (objGet m K).isSome = true := by
  refine exceptFoldl_hits (fun mm => (objGet mm K).isSome = true) _ ?_ K ?_ l acc m hmem h
  · intro acc2 tn acc' hstep hs2
    cases htn : pyGetRequireInfo st fs pySrcDir destDir tn with
    | error e => rw [htn] at hstep; cases hstep
    | ok info =>
      rw [htn] at hstep
      cases hstep
      exact isSome_objSet acc2 tn K info hs2
  · intro acc2 acc' hstep
    cases htn : pyGetRequireInfo st fs pySrcDir destDir K with
    | error e => rw [htn] at hstep; cases hstep
    | ok info =>
      rw [htn] at hstep
      cases hstep
      rw [objGet_objSet_self]
      rfl

theorem jsDepStep_good (st : Store) (fs : String → Bool)
    (srcDir destDir : String) (acc acc' : ObjMap JsRequireInfo) (p : PropDesc)
    (h : jsDepStep st fs srcDir destDir acc p = Except.ok acc')
    (hg : GoodJs st fs srcDir destDir acc) : GoodJs st fs srcDir destDir acc' := by
  unfold jsDepStep at h
  by_cases h1 : isThreeRef p = true
  · rw [if_pos h1] at h
    by_cases h2 : p.typeName ≠ TypeNameV.str "this"
    · rw [if_pos h2] at h
      cases hty : p.typeName with
      | str s =>
        rw [hty] at h
        simp only at h
        cases hget : jsGetRequireInfo st fs srcDir destDir
            (if s = "" then "./_base/Three" else s) with
        | error e => rw [hget] at h; cases h
        | ok info =>
          rw [hget] at h
          cases h
          exact goodJs_objSet st fs srcDir destDir acc _ info hg hget
      | arr l =>
        rw [hty] at h
        exact jsInsertFold_good st fs srcDir destDir l acc acc' h hg
      | undef => rw [hty] at h; cases h; exact hg
    · rw [if_neg h2] at h; cases h; exact hg
  · rw [if_neg h1] at h; cases h; exact hg

theorem pyDepStep_good (st : Store) (fs : String → Bool)
    (pySrcDir destDir : String) (acc acc' : ObjMap PyRequireInfo) (p : PropDesc)
    (h : pyDepStep st fs pySrcDir destDir acc p = Except.ok acc')
    (hg : GoodPy st fs pySrcDir destDir acc) : GoodPy st fs pySrcDir destDir acc' := by
  unfold pyDepStep at h
  by_cases h1 : isThreeRef p = true
  · rw [if_pos h1] at h
    by_cases h2 : p.typeName ≠ TypeNameV.str "this"
    · rw [if_pos h2] at h
      cases hty : p.typeName with
      | str s =>
        rw [hty] at h
        simp only at h
        cases hget : pyGetRequireInfo st fs pySrcDir destDir
            (if s = "" then "./_base/Three" else s) with
        | error e => rw [hget] at h; cases h
        | ok info =>
          rw [hget] at h
          cases h
          exact goodPy_objSet st fs pySrcDir destDir acc _ (pyRenameThree info) info
            hg hget (Or.inr rfl)
      | arr l =>
        rw [hty] at h
        exact pyInsertFold_good st fs pySrcDir destDir l acc acc' h hg
      | undef => rw [hty] at h; cases h; exact hg
    · rw [if_neg h2] at h; cases h; exact hg
  · rw [if_neg h1] at h; cases h; exact hg

theorem jsDepStep_isSome (st : Store) (fs : String → Bool)
    (srcDir destDir : String) (K : String)
    (acc acc' : ObjMap JsRequireInfo) (p : PropDesc)
    (h : jsDepStep st fs srcDir destDir acc p = Except.ok acc')
    (hs : (objGet acc K).isSome = true) : (objGet acc' K).isSome = true := by
  unfold jsDepStep at h
  by_cases h1 : isThreeRef p = true
  · rw [if_pos h1] at h
    by_cases h2 : p.typeName ≠ TypeNameV.str "this"
    · rw [if_pos h2] at h
      cases hty : p.typeName with
      | str s =>
        rw [hty] at h
        simp only at h
        cases hget : jsGetRequireInfo st fs srcDir destDir
            (if s = "" then "./_base/Three" else s) with
        | error e => rw [hget] at h; cases h
        | ok info =>
          rw [hget] at h
          cases h
          exact isSome_objSet acc _ K info hs
      | arr l =>
        rw [hty] at h
        exact jsInsertFold_isSome st fs srcDir destDir l K acc acc' h hs
      | undef => rw [hty] at h; cases h; exact hs
    · rw [if_neg h2] at h; cases h; exact hs
  · rw [if_neg h1] at h; cases h; exact hs

theorem pyDepStep_isSome (st : Store) (fs : String → Bool)
    (pySrcDir destDir : String) (K : String)
    (acc acc' : ObjMap PyRequireInfo) (p : PropDesc)
    (h : pyDepStep st fs pySrcDir destDir acc p = Except.ok acc')
    (hs : (objGet acc K).isSome = true) : (objGet acc' K).isSome = true := by
  unfold pyDepStep at h
  by_cases h1 : isThreeRef p = true
  · rw [if_pos h1] at h
    by_cases h2 : p.typeName ≠ TypeNameV.str "this"
    · rw [if_pos h2] at h
      cases hty : p.typeName with
      | str s =>
        rw [hty] at h
        simp only at h
        cases hget : pyGetRequireInfo st fs pySrcDir destDir
            (if s = "" then "./_base/Three" else s) with
        | error e => rw [hget] at h; cases h
        | ok info =>
          rw [hget] at h
          cases h
          exact isSome_objSet acc _ K (pyRenameThree info) hs
      | arr l =>
        rw [hty] at h
        exact pyInsertFold_isSome st fs pySrcDir destDir l K acc acc' h hs
      | undef => rw [hty] at h; cases h; exact hs
    · rw [if_neg h2] at h; cases h; exact hs
  · rw [if_neg h1] at h; cases h; exact hs

theorem jsDepStep_hits (st : Store) (fs : String → Bool)
    (srcDir destDir : String) (K : String)
    (acc acc' : ObjMap JsRequireInfo) (p : PropDesc)
    (href : propRefersTo p K)
    (h : jsDepStep st fs srcDir destDir acc p = Except.ok acc') :
    (objGet acc' K).isSome = true := by
  obtain ⟨h1, h2, h3⟩ := href
  unfold jsDepStep at h
  rw [if_pos h1, if_pos h2] at h
  rcases h3 with ⟨s, hty, hK⟩ | ⟨l, hty, hmem⟩
  · rw [hty] at h
    simp only at h
    cases hget : jsGetRequireInfo st fs srcDir destDir
        (if s = "" then "./_base/Three" else s) with
    | error e => rw [hget] at h; cases h
    | ok info =>
      rw [hget] at h
      cases h
      rw [hK, objGet_objSet_self]
      rfl
  · rw [hty] at h
    exact jsInsertFold_hits st fs srcDir destDir l K acc acc' hmem h

theorem pyDepStep_hits (st : Store) (fs : String → Bool)
    (pySrcDir destDir : String) (K : String)
    (acc acc' : ObjMap PyRequireInfo) (p : PropDesc)
    (href : propRefersTo p K)
    (h : pyDepStep st fs pySrcDir destDir acc p = Except.ok acc') :
    (objGet acc' K).isSome = true := by
  obtain ⟨h1, h2, h3⟩ := href
  unfold pyDepStep at h
  rw [if_pos h1, if_pos h2] at h
  rcases h3 with ⟨s, hty, hK⟩ | ⟨l, hty, hmem⟩
  · rw [hty] at h
    simp only at h
    cases hget : pyGetRequireInfo st fs pySrcDir destDir
        (if s = "" then "./_base/Three" else s) with
    | error e => rw [hget] at h; cases h
    | ok info =>
      rw [hget] at h
      cases h
      rw [hK, objGet_objSet_self]
      rfl
  · rw [hty] at h
    exact pyInsertFold_hits st fs pySrcDir destDir l K acc acc' hmem h

/-- A property of the class's own declared set that contributes key `K`
forces an entry for `K` in the JavaScript dependency mapping, and that entry
is exactly the resolution of `K`. -/
theorem jsProcessDependencies_entry (st : Store) (fs : String → Bool)
    (srcDir destDir : String) (config : ResolvedCfg) (K : String)
    (n : String) (p : PropDesc)
    (hmem : (n, p) ∈ (config.properties.getD [])) (href : propRefersTo p K)
    (m : ObjMap JsRequireInfo)
    (hok : jsProcessDependencies st fs srcDir destDir config = Except.ok m) :
    ∃ v, objGet m K = some v ∧
      jsGetRequireInfo st fs srcDir destDir K = Except.ok v := by
  unfold jsProcessDependencies at hok
  cases hd : jsInsertFold st fs srcDir destDir (config.dependencies.getD []) [] with
  | error e => rw [hd] at hok; cases hok
  | ok deps =>
    rw [hd] at hok
    have hgdeps : GoodJs st fs srcDir destDir deps :=
      jsInsertFold_good st fs srcDir destDir _ [] deps hd
        (fun k v h => by cases h)
    have hgm : GoodJs st fs srcDir destDir m :=
      exceptFoldl_inv (GoodJs st fs srcDir destDir) _
        (fun acc kv acc' hstep hg =>
          jsDepStep_good st fs srcDir destDir acc acc' kv.2 hstep hg)
        _ deps m hok hgdeps
    have hsm : (objGet m K).isSome = true :=
      exceptFoldl_hits (fun mm => (objGet mm K).isSome = true) _
        (fun acc kv acc' hstep hs =>
          jsDepStep_isSome st fs srcDir destDir K acc acc' kv.2 hstep hs)
        (n, p)
        (fun acc acc' hstep =>
          jsDepStep_hits st fs srcDir destDir K acc acc' p href hstep)
        _ deps m hmem hok
    obtain ⟨v, hv⟩ := Option.isSome_iff_exists.mp hsm
    exact ⟨v, hv, hgm K v hv⟩

/-- Python counterpart of `jsProcessDependencies_entry` (the entry may carry
the `Three` → `ThreeWidget` rename). -/
theorem pyProcessDependencies_entry (st : Store) (fs : String → Bool)
    (pySrcDir destDir : String) (config : ResolvedCfg) (K : String)
    (n : String) (p : PropDesc)
    (hmem : (n, p) ∈ (config.properties.getD [])) (href : propRefersTo p K)
    (m : ObjMap PyRequireInfo)
    (hok : pyProcessDependencies st fs pySrcDir destDir config = Except.ok m) :
    ∃ v w, objGet m K = some v ∧
      pyGetRequireInfo st fs pySrcDir destDir K = Except.ok w ∧
      (v = w ∨ v = pyRenameThree w) := by
  unfold pyProcessDependencies at hok
  cases hd : pyInsertFold st fs pySrcDir destDir (config.dependencies.getD []) [] with
  | error e => rw [hd] at hok; cases hok
  | ok deps =>
    rw [hd] at hok
    have hgdeps : GoodPy st fs pySrcDir destDir deps :=
      pyInsertFold_good st fs pySrcDir destDir _ [] deps hd
        (fun k v h => by cases h)
    have hgm : GoodPy st fs pySrcDir destDir m :=
      exceptFoldl_inv (GoodPy st fs pySrcDir destDir) _
        (fun acc kv acc' hstep hg =>
          pyDepStep_good st fs pySrcDir destDir acc acc' kv.2 hstep hg)
        _ deps m hok hgdeps
    have hsm : (objGet m K).isSome = true :=
      exceptFoldl_hits (fun mm => (objGet mm K).isSome = true) _
        (fun acc kv acc' hstep hs =>
          pyDepStep_isSome st fs pySrcDir destDir K acc acc' kv.2 hstep hs)
        (n, p)
        (fun acc acc' hstep =>
          pyDepStep_hits st fs pySrcDir destDir K acc acc' p href hstep)
        _ deps m hmem hok
    obtain ⟨v, hv⟩ := Option.isSome_iff_exists.mp hsm
    obtain ⟨w, hw, hvw⟩ := hgm K v hv
    exact ⟨v, w, hv, hw, hvw⟩

/-- C4: if a class's own declared property references a class `K` present in
the Config Store, the dependency mapping computed in either target language
contains an entry for `K` whose resolved file path is `K`'s conventional
override location when an override file exists there, and `K`'s conventional
generated-artifact location otherwise. -/
theorem reference_override_routing
    (st : Store) (fs : String → Bool) (sd dd psd pdd : String)
    (config : ResolvedCfg) (K rp : String) (n : String) (p : PropDesc)
    (rcY : ResolvedCfg)
    (hmem : (n, p) ∈ (config.properties.getD [])) (href : propRefersTo p K)
    (h1 : (objGet st.entries K).isSome = true)
    (h2 : getClassConfig st K = Except.ok rcY)
    (h3 : rcY.relativePath = some rp) :
    (∀ m, jsProcessDependencies st fs sd dd config = Except.ok m →
       ∃ info, objGet m K = some info ∧
         info.resolvedFilePath =
           (if fs (jsOverrideLoc sd rp) then jsOverrideLoc sd rp
            else jsAutogenLoc sd rp)) ∧
    (∀ m, pyProcessDependencies st fs psd pdd config = Except.ok m →
       ∃ info, objGet m K = some info ∧
         info.absolutePath =
           (if fs (pyOverrideLoc psd rp) then pyModuleLoc psd rp
            else pyAutogenModule psd rp)) := by
  have hnp := descriptorNamePath_store st K rp rcY h1 h2 h3
  constructor
  · intro m hok
    obtain ⟨v, hv, hres⟩ :=
      jsProcessDependencies_entry st fs sd dd config K n p hmem href m hok
    rw [jsGetRequireInfo_of_namePath st fs sd dd K K rp hnp] at hres
    cases hres
    exact ⟨_, hv, rfl⟩
  · intro m hok
    obtain ⟨v, w, hv, hw, hvw⟩ :=
      pyProcessDependencies_entry st fs psd pdd config K n p hmem href m hok
    rw [pyGetRequireInfo_of_namePath st fs psd pdd K K rp hnp] at hw
    cases hw
    refine ⟨v, hv, ?_⟩
    rcases hvw with rfl | rfl
    · rfl
    · rw [pyRenameThree_absolutePath]

/-- No file exists (no hand-written overrides anywhere). -/
def fs0 : String → Bool := fun _ => false

/-- Every file exists (an override at every conventional location). -/
def fsAll : String → Bool := fun _ => true

/-- The resolved configuration of `Shape` in `ringStore2`, as the class under
generation for the C4 witness: its own properties include a descriptor
referencing `Base`. -/
def c4cfg : ResolvedCfg :=
  { superClass := some "Base", relativePath := some "shapes/Shape",
    properties := some [("radius", plainProp), ("base", threeRefProp "Base")],
    dependencies := none, constructorArgs := none,
    propsDefinedByThree := [], allProperties := [] }

/-- C4 witness: with no override present the JavaScript entry for `Base`
points at the generated artifact; with an override present the Python entry
points at the override module. -/
theorem reference_override_routing_witness :
    (∃ info,
      objGet ((jsProcessDependencies ringStore2 fs0 "/js" "/js/shapes"
        c4cfg).toOption.getD []) "Base" = some info ∧
      info.resolvedFilePath = jsAutogenLoc "/js" "shapes/Base") ∧
    (∃ info,
      objGet ((pyProcessDependencies ringStore2 fsAll "/py" "/py/shapes"
        c4cfg).toOption.getD []) "Base" = some info ∧
      info.absolutePath = pyModuleLoc "/py" "shapes/Base") := by
  have href : propRefersTo (threeRefProp "Base") "Base" :=
    ⟨rfl, by decide, Or.inl ⟨"Base", rfl, by decide⟩⟩
  have hmem : ("base", threeRefProp "Base") ∈ (c4cfg.properties.getD []) := by
    decide
  constructor
  · obtain ⟨info, hv, hres⟩ :=
      (reference_override_routing ringStore2 fs0 "/js" "/js/shapes" "/py"
        "/py/shapes" c4cfg "Base" "shapes/Base" "base" (threeRefProp "Base")
        ((getClassConfig ringStore2 "Base").toOption.getD default)
        hmem href rfl rfl rfl).1
      ((jsProcessDependencies ringStore2 fs0 "/js" "/js/shapes"
        c4cfg).toOption.getD []) rfl
    exact ⟨info, hv, hres.trans (by rfl)⟩
  · obtain ⟨info, hv, hres⟩ :=
      (reference_override_routing ringStore2 fsAll "/js" "/js/shapes" "/py"
        "/py/shapes" c4cfg "Base" "shapes/Base" "base" (threeRefProp "Base")
        ((getClassConfig ringStore2 "Base").toOption.getD default)
        hmem href rfl rfl rfl).2
      ((pyProcessDependencies ringStore2 fsAll "/py" "/py/shapes"
        c4cfg).toOption.getD []) rfl
    exact ⟨info, hv, hres.trans (by rfl)⟩

/-- C9: an own property of a class-referencing kind whose target is the
unnamed/default reference (the falsy empty string — and not the
self-reference `'this'`) falls back to the designated base-type sentinel path
`'./_base/Three'`: the dependency mapping of both languages gains an entry
keyed by the sentinel whose relative path is the sentinel path itself (the
sentinel is a bare path, absent from the Config Store). -/
theorem unnamed_ref_base_sentinel
    (st : Store) (fs : String → Bool) (sd dd psd pdd : String)
    (config : ResolvedCfg) (n : String) (p : PropDesc)
    (hmem : (n, p) ∈ (config.properties.getD []))
    (hkind : isThreeRef p = true) (hty : p.typeName = TypeNameV.str "")
    (hsent : objGet st.entries "./_base/Three" = none) :
    (∀ m, jsProcessDependencies st fs sd dd config = Except.ok m →
       ∃ info, objGet m "./_base/Three" = some info ∧
         info.className = "Three" ∧ info.relativePath = "./_base/Three") ∧
    (∀ m, pyProcessDependencies st fs psd pdd config = Except.ok m →
       ∃ info, objGet m "./_base/Three" = some info ∧
         info.relativePath = "./_base/Three") := by
  have href : propRefersTo p "./_base/Three" :=
    ⟨hkind, by rw [hty]; decide, Or.inl ⟨"", hty, by decide⟩⟩
  have hnp := descriptorNamePath_path st "./_base/Three" hsent
  have hb : pathBasename "./_base/Three" ".js" = "Three" := rfl
  rw [hb] at hnp
  constructor
  · intro m hok
    obtain ⟨v, hv, hres⟩ :=
      jsProcessDependencies_entry st fs sd dd config "./_base/Three" n p
        hmem href m hok
    rw [jsGetRequireInfo_of_namePath st fs sd dd "./_base/Three" "Three"
      "./_base/Three" hnp] at hres
    cases hres
    exact ⟨_, hv, rfl, rfl⟩
  · intro m hok
    obtain ⟨v, w, hv, hw, hvw⟩ :=
      pyProcessDependencies_entry st fs psd pdd config "./_base/Three" n p
        hmem href m hok
    rw [pyGetRequireInfo_of_namePath st fs psd pdd "./_base/Three" "Three"
      "./_base/Three" hnp] at hw
    cases hw
    refine ⟨v, hv, ?_⟩
    rcases hvw with rfl | rfl
    · rfl
    · rw [pyRenameThree_relativePath]

/-- A referencing descriptor with the unnamed (empty-string) target. -/
def unnamedRefProp : PropDesc :=
  { kind := RefKind.threeType, typeName := TypeNameV.str "" }

/-- A resolved configuration declaring one unnamed class reference. -/
def c9cfg : ResolvedCfg :=
  { superClass := none, relativePath := some "shapes/Thing",
    properties := some [("ref", unnamedRefProp)],
    dependencies := none, constructorArgs := none,
    propsDefinedByThree := [], allProperties := [] }

/-- C9 witness: the sentinel entry at a concrete store and configuration. -/
theorem unnamed_ref_base_sentinel_witness :
    (∃ info,
      objGet ((jsProcessDependencies ringStore fs0 "/js" "/js/shapes"
        c9cfg).toOption.getD []) "./_base/Three" = some info ∧
      info.className = "Three" ∧ info.relativePath = "./_base/Three") ∧
    (∃ info,
      objGet ((pyProcessDependencies ringStore fs0 "/py" "/py/shapes"
        c9cfg).toOption.getD []) "./_base/Three" = some info ∧
      info.relativePath = "./_base/Three") := by
  have h := unnamed_ref_base_sentinel ringStore fs0 "/js" "/js/shapes" "/py"
    "/py/shapes" c9cfg "ref" unnamedRefProp (by decide) rfl rfl rfl
  exact ⟨h.1 _ rfl, h.2 _ rfl⟩

theorem exceptFoldl_single {α β : Type} (f : β → α → Except GenErr β)
    (x : α) (acc acc' : β) (h : f acc x = Except.ok acc') :
    exceptFoldl f [x] acc = Except.ok acc' := by
  unfold exceptFoldl
  rw [h]
  rfl

theorem pyInsertFold_single (st : Store) (fs : String → Bool)
    (pySrcDir destDir : String) (tn : String) (acc : ObjMap PyRequireInfo)
    (w : PyRequireInfo) (h : pyGetRequireInfo st fs pySrcDir destDir tn = Except.ok w) :
    pyInsertFold st fs pySrcDir destDir [tn] acc = Except.ok (objSet acc tn w) := by
  unfold pyInsertFold
  refine exceptFoldl_single _ _ _ _ ?_
  simp only [h]

/-- C10: in the Python generator a resolved superclass reference with class
name `Three` is renamed to `ThreeWidget`; the same rename applies to a
property-inferred dependency whose type name is a single string, but not to
dependencies inferred from an array of type names, nor to explicitly listed
dependencies. -/
theorem python_three_widget_rename (st : Store) (fs : String → Bool)
    (psd pdd : String) :
    (∀ (config : ResolvedCfg) (s : String) (w : PyRequireInfo),
       config.superClass = some s →
       pyGetRequireInfo st fs psd pdd s = Except.ok w →
       pyProcessSuperClass st fs psd pdd config = Except.ok
         (if w.className = "Three" then { w with className := "ThreeWidget" }
          else w)) ∧
    (∀ (config : ResolvedCfg) (n : String) (p : PropDesc) (s : String)
       (w : PyRequireInfo),
       config.dependencies = none → config.properties = some [(n, p)] →
       isThreeRef p = true → p.typeName = TypeNameV.str s →
       s ≠ "this" → s ≠ "" →
       pyGetRequireInfo st fs psd pdd s = Except.ok w →
       pyProcessDependencies st fs psd pdd config = Except.ok
         [(s, if w.className = "Three" then { w with className := "ThreeWidget" }
              else w)]) ∧
    (∀ (config : ResolvedCfg) (n : String) (p : PropDesc) (s : String)
       (w : PyRequireInfo),
       config.dependencies = none → config.properties = some [(n, p)] →
       isThreeRef p = true → p.typeName = TypeNameV.arr [s] →
       pyGetRequireInfo st fs psd pdd s = Except.ok w →
       pyProcessDependencies st fs psd pdd config = Except.ok [(s, w)]) ∧
    (∀ (config : ResolvedCfg) (d : String) (w : PyRequireInfo),
       config.dependencies = some [d] → config.properties = none →
       pyGetRequireInfo st fs psd pdd d = Except.ok w →
       pyProcessDependencies st fs psd pdd config = Except.ok [(d, w)]) := by
  refine ⟨?_, ?_, ?_, ?_⟩
  · intro config s w hsc hw
    unfold pyProcessSuperClass
    rw [hsc]
    show (match pyGetRequireInfo st fs psd pdd s with
          | Except.error e => Except.error e
          | Except.ok w0 => Except.ok (pyRenameThree w0)) = _
    rw [hw]
    rfl
  · intro config n p s w hdeps hprops hkind hty hs1 hs2 hw
    have h1 : pyProcessDependencies st fs psd pdd config =
        exceptFoldl (fun (acc : ObjMap PyRequireInfo) (kv : String × PropDesc) =>
          pyDepStep st fs psd pdd acc kv.2) [(n, p)] [] := by
      unfold pyProcessDependencies
      rw [hdeps, hprops]
      rfl
    have h2 : pyDepStep st fs psd pdd [] p =
        Except.ok [(s, pyRenameThree w)] := by
      unfold pyDepStep
      rw [if_pos hkind, if_pos (by rw [hty]; simp [hs1]), hty]
      simp only [if_neg hs2, hw]
      rfl
    rw [h1]
    exact exceptFoldl_single _ (n, p) [] _ h2
  · intro config n p s w hdeps hprops hkind hty hw
    have h1 : pyProcessDependencies st fs psd pdd config =
        exceptFoldl (fun (acc : ObjMap PyRequireInfo) (kv : String × PropDesc) =>
          pyDepStep st fs psd pdd acc kv.2) [(n, p)] [] := by
      unfold pyProcessDependencies
      rw [hdeps, hprops]
      rfl
    have h2 : pyDepStep st fs psd pdd [] p = Except.ok [(s, w)] := by
      unfold pyDepStep
      rw [if_pos hkind, if_pos (by rw [hty]; simp), hty]
      exact pyInsertFold_single st fs psd pdd s [] w hw
    rw [h1]
    exact exceptFoldl_single _ (n, p) [] _ h2
  · intro config d w hdeps hprops hw
    have hins : pyInsertFold st fs psd pdd [d] [] = Except.ok [(d, w)] :=
      pyInsertFold_single st fs psd pdd d [] w hw
    unfold pyProcessDependencies
    rw [hdeps, hprops]
    rw [show ((some [d]).getD ([] : List String)) = [d] from rfl, hins]
    rfl

/-- A configuration whose superclass descriptor resolves to class name
`Three` (the bare base-widget path, absent from the store). -/
def c10supCfg : ResolvedCfg :=
  { superClass := some "./_base/Three", relativePath := none, properties := none,
    dependencies := none, constructorArgs := none,
    propsDefinedByThree := [], allProperties := [] }

/-- A descriptor referencing `./_base/Three` by a single string name. -/
def c10strProp : PropDesc :=
  { kind := RefKind.threeType, typeName := TypeNameV.str "./_base/Three" }

/-- A descriptor referencing `./_base/Three` inside an array. -/
def c10arrProp : PropDesc :=
  { kind := RefKind.threeTypeArray, typeName := TypeNameV.arr ["./_base/Three"] }

/-- One own property referencing `./_base/Three` by a single string name. -/
def c10strCfg : ResolvedCfg :=
  { superClass := none, relativePath := none,
    properties := some [("r", c10strProp)],
    dependencies := none, constructorArgs := none,
    propsDefinedByThree := [], allProperties := [] }

/-- One own property referencing `./_base/Three` inside an array. -/
def c10arrCfg : ResolvedCfg :=
  { superClass := none, relativePath := none,
    properties := some [("r", c10arrProp)],
    dependencies := none, constructorArgs := none,
    propsDefinedByThree := [], allProperties := [] }

/-- `./_base/Three` as an explicitly listed dependency. -/
def c10depCfg : ResolvedCfg :=
  { superClass := none, relativePath := none, properties := none,
    dependencies := some ["./_base/Three"], constructorArgs := none,
    propsDefinedByThree := [], allProperties := [] }

/-- C10 witness: at concrete inputs the superclass reference and the
string-inferred dependency are renamed to `ThreeWidget`, while the
array-inferred and explicitly listed dependencies keep class name `Three`. -/
theorem python_three_widget_rename_witness :
    ((pyProcessSuperClass ringStore fs0 "/py" "/py/shapes" c10supCfg).map
        (fun w => w.className) = Except.ok "ThreeWidget") ∧
    ((pyProcessDependencies ringStore fs0 "/py" "/py/shapes" c10strCfg).map
        (fun m => (objGet m "./_base/Three").map (fun i => i.className)) =
      Except.ok (some "ThreeWidget")) ∧
    ((pyProcessDependencies ringStore fs0 "/py" "/py/shapes" c10arrCfg).map
        (fun m => (objGet m "./_base/Three").map (fun i => i.className)) =
      Except.ok (some "Three")) ∧
    ((pyProcessDependencies ringStore fs0 "/py" "/py/shapes" c10depCfg).map
        (fun m => (objGet m "./_base/Three").map (fun i => i.className)) =
      Except.ok (some "Three")) := by
  obtain ⟨t1, t2, t3, t4⟩ := python_three_widget_rename ringStore fs0 "/py" "/py/shapes"
  refine ⟨?_, ?_, ?_, ?_⟩
  · rw [t1 c10supCfg "./_base/Three"
      ((pyGetRequireInfo ringStore fs0 "/py" "/py/shapes"
        "./_base/Three").toOption.getD default) rfl rfl]
    rfl
  · rw [t2 c10strCfg "r" c10strProp "./_base/Three"
      ((pyGetRequireInfo ringStore fs0 "/py" "/py/shapes"
        "./_base/Three").toOption.getD default) rfl rfl rfl rfl
      (by decide) (by decide) rfl]
    rfl
  · rw [t3 c10arrCfg "r" c10arrProp "./_base/Three"
      ((pyGetRequireInfo ringStore fs0 "/py" "/py/shapes"
        "./_base/Three").toOption.getD default) rfl rfl rfl rfl rfl]
    rfl
  · rw [t4 c10depCfg "./_base/Three"
      ((pyGetRequireInfo ringStore fs0 "/py" "/py/shapes"
        "./_base/Three").toOption.getD default) rfl rfl rfl]
    rfl

/-- Modelled from the spec (§4.3): the full reference mapping of a class —
the dependency table combined with the always-resolved superclass reference,
keyed by class name.  (In the source the superclass reference is held in a
separate `superClass` context field next to the `dependencies` table; the
spec's "reference mapping" is their union.) -/
def referenceMappingJS (st : Store) (fs : String → Bool)
    (srcDir destDir : String) (config : ResolvedCfg) :
    Except GenErr (ObjMap JsRequireInfo) :=
  match jsProcessSuperClass st fs srcDir destDir config with
  | Except.error e => Except.error e
  | Except.ok sup =>
    match jsProcessDependencies st fs srcDir destDir config with
    | Except.error e => Except.error e
    | Except.ok deps => Except.ok (objSet deps sup.className sup)

/-- The reference mapping computed when generating `Ring` (no overrides on
disk, JavaScript source root `/js`, generating into `/js/shapes`). -/
def ringRefMap (st : Store) : Except GenErr (ObjMap JsRequireInfo) :=
  match getClassConfig st "Ring" with
  | Except.error e => Except.error e
  | Except.ok cfg => referenceMappingJS st fs0 "/js" "/js/shapes" cfg

/-- C5: dependency inference scans only the class's own declared properties.
In the spec's example, `Ring`'s reference mapping directly contains exactly
the entry for `Shape` (its superclass, pointing at `Shape`'s generated
artifact — no override present) and no entry for `Base`; and even when
`Shape` declares an own property referencing `Base` (`ringStore2`), so that
`Ring` *inherits* a class-referencing property (visible in its
`allProperties`), `Ring`'s mapping still contains only `Shape`. -/
theorem dependencies_own_props_only :
    (ringRefMap ringStore).map (fun m => m.map Prod.fst) = Except.ok ["Shape"] ∧
    (ringRefMap ringStore).map
        (fun m => (objGet m "Shape").map (fun i => i.resolvedFilePath)) =
      Except.ok (some (jsAutogenLoc "/js" "shapes/Shape")) ∧
    (ringRefMap ringStore).map (fun m => objGet m "Base") = Except.ok none ∧
    (ringRefMap ringStore2).map (fun m => m.map Prod.fst) = Except.ok ["Shape"] ∧
    (getClassConfig ringStore2 "Ring").map
        (fun c => (objGet c.allProperties "base").isSome) = Except.ok true :=
  ⟨rfl, rfl, rfl, rfl, rfl⟩

theorem strAppend_left_cancel {s a b : String} (h : s ++ a = s ++ b) : a = b := by
  have hd : s.data ++ a.data = s.data ++ b.data := by
    rw [← String.data_append, ← String.data_append, h]
  have hab : a.data = b.data := List.append_cancel_left hd
  cases a
  cases b
  exact congrArg String.mk hab

/-- The `excludes` list of `writeJavascriptIndexFiles`: editor/OS artifacts,
index files themselves, and the two top-level non-generated entry points. -/
def jsIndexExcludes (filePath : String) : Bool :=
  strEndsWith filePath ".swp" || strEndsWith filePath ".DS_Store" ||
  strEndsWith filePath "index.js" ||
  filePath = "./embed.js" || filePath = "./extension.js"

/-- The filter predicate of `writeIndexForDir`: drop every autogen file when
the directory path contains `_base`; drop excluded files; drop an autogen
file whose same-named override is present in the (pre-filter) directory
listing; keep everything else. -/
def jsIndexKeep (dirPath : String) (dirFiles : List String)
    (filePath : String) : Bool :=
  if strContains dirPath "_base" && strEndsWith filePath ".autogen.js" then false
  else if jsIndexExcludes filePath then false
  else if strEndsWith filePath ".autogen.js" then
    let dirname := pathDirname filePath
    let basename := pathBasename filePath ".autogen.js"
    let overridePath := "./" ++ pathJoin dirname (basename ++ ".js")
    !(decide (overridePath ∈ dirFiles))
  else true

/-- The `submodules` listing `writeIndexForDir` renders for one directory:
map the raw listing to `'./' + join(dirPath, filename)` paths, filter with
`jsIndexKeep` (the closure reads the *pre-filter* `dirFiles`, as in the
source, where the reassignment happens only after `filter` returns), then
map back to `'./' + basename`. -/
def jsIndexEntries (dirPath : String) (dirListing : List String) : List String :=
  let dirFiles := dirListing.map (fun filename => "./" ++ pathJoin dirPath filename)
  (dirFiles.filter (jsIndexKeep dirPath dirFiles)).map
    (fun filePath => "./" ++ pathBasename filePath "")

/-- C6 counterexample: in directory `geometries`, with both the generated
artifact `index.autogen.js` and its same-named override `index.js` present,
the rendered index lists *neither* file: the claim's "exactly one of the two
(the override) appears" fails, because the override's own name matches the
index-file exclusion pattern (`/index\.js$/`). -/
theorem index_excluded_override_counterexample :
    "index.autogen.js" ∈ ["index.autogen.js", "index.js"] ∧
    "index.js" ∈ ["index.autogen.js", "index.js"] ∧
    jsIndexEntries "geometries" ["index.autogen.js", "index.js"] = [] :=
  ⟨by decide, by decide, rfl⟩

/-- C6 (amended): the directory index never lists both a generated artifact
and its same-named override: whenever both are in the listing the autogen
entry is always omitted (in every directory, the shared `_base` directory
included), and the override appears provided its own name is not itself
caught by the index's exclusion rules (a name ending in `index.js`, the
designated entry-point files, editor/OS artifact patterns) and does not look
like an autogen file. -/
theorem index_never_lists_both
    (dirPath c : String) (files : List String)
    (hag : (c ++ ".autogen.js") ∈ files) (hov : (c ++ ".js") ∈ files)
    (hbn : ∀ f ∈ files, pathBasename ("./" ++ pathJoin dirPath f) "" = f)
    (hop : "./" ++ pathJoin
        (pathDirname ("./" ++ pathJoin dirPath (c ++ ".autogen.js")))
        (pathBasename ("./" ++ pathJoin dirPath (c ++ ".autogen.js"))
          ".autogen.js" ++ ".js")
      = "./" ++ pathJoin dirPath (c ++ ".js"))
    (hagE : strEndsWith ("./" ++ pathJoin dirPath (c ++ ".autogen.js"))
        ".autogen.js" = true)
    (hovA : strEndsWith ("./" ++ pathJoin dirPath (c ++ ".js"))
        ".autogen.js" = false)
    (hovE : jsIndexExcludes ("./" ++ pathJoin dirPath (c ++ ".js")) = false) :
    ("./" ++ (c ++ ".autogen.js")) ∉ jsIndexEntries dirPath files ∧
    ("./" ++ (c ++ ".js")) ∈ jsIndexEntries dirPath files := by
  set dirFiles := files.map (fun filename => "./" ++ pathJoin dirPath filename)
    with hdf
  have hovMem : ("./" ++ pathJoin dirPath (c ++ ".js")) ∈ dirFiles := by
    rw [hdf]
    exact List.mem_map.mpr ⟨c ++ ".js", hov, rfl⟩
  have hkeepAg : jsIndexKeep dirPath dirFiles
      ("./" ++ pathJoin dirPath (c ++ ".autogen.js")) = false := by
    unfold jsIndexKeep
    rw [hagE]
    cases hb : strContains dirPath "_base"
    · simp only [Bool.false_and, Bool.and_true, if_false, Bool.false_eq_true,
        if_neg (Bool.false_ne_true)]
      cases hex : jsIndexExcludes ("./" ++ pathJoin dirPath (c ++ ".autogen.js"))
      · simp only [Bool.false_eq_true, if_neg (Bool.false_ne_true), if_pos rfl]
        rw [hop]
        simp [hovMem]
      · simp
    · simp
  have hkeepOv : jsIndexKeep dirPath dirFiles
      ("./" ++ pathJoin dirPath (c ++ ".js")) = true := by
    unfold jsIndexKeep
    rw [hovA, hovE]
    simp
  constructor
  · intro hmem
    unfold jsIndexEntries at hmem
    rw [← hdf] at hmem
    obtain ⟨fp, hfp, hfpeq⟩ := List.mem_map.mp hmem
    obtain ⟨hfpd, hfpk⟩ := List.mem_filter.mp hfp
    obtain ⟨f, hf, hfeq⟩ := List.mem_map.mp (hdf ▸ hfpd)
    have hbase : pathBasename fp "" = f := by rw [← hfeq]; exact hbn f hf
    rw [hbase] at hfpeq
    have hfc : f = c ++ ".autogen.js" := strAppend_left_cancel hfpeq
    rw [hfc] at hfeq
    rw [← hfeq] at hfpk
    rw [hkeepAg] at hfpk
    cases hfpk
  · unfold jsIndexEntries
    rw [← hdf]
    refine List.mem_map.mpr ⟨"./" ++ pathJoin dirPath (c ++ ".js"),
      List.mem_filter.mpr ⟨hovMem, hkeepOv⟩, ?_⟩
    rw [hbn (c ++ ".js") hov]

/-- C6 witness: the amended theorem at a concrete directory listing that
contains both `Ring.autogen.js` and its override `Ring.js`. -/
theorem index_never_lists_both_witness :
    ("./Ring.autogen.js") ∉
      jsIndexEntries "shapes" ["Ring.autogen.js", "Ring.js", "Base.autogen.js"] ∧
    ("./Ring.js") ∈
      jsIndexEntries "shapes" ["Ring.autogen.js", "Ring.js", "Base.autogen.js"] := by
  have h := index_never_lists_both "shapes" "Ring"
    ["Ring.autogen.js", "Ring.js", "Base.autogen.js"]
    (by decide) (by decide) (by decide) rfl rfl rfl rfl
  exact h

/-- `AUTOGEN_EXT`. -/
def AUTOGEN_EXT : String := "autogen"

/-- The `CUSTOM_CLASSES` list (classes with no direct three.js counterpart). -/
def CUSTOM_CLASSES : List String :=
  ["textures/ImageTexture.js",
   "textures/TextTexture.js",
   "cameras/CombinedCamera.js",
   "controls/Controls.js",
   "controls/OrbitControls.js",
   "controls/TrackballControls.js",
   "controls/FlyControls.js",
   "controls/Picker.js",
   "core/BaseGeometry.js",
   "core/BaseBufferGeometry.js",
   "objects/CloneArray.js",
   "objects/Blackbox.js"]

/-- `JavascriptWrapper.getModelToThreeGetter`: the expression reading a
property off the model, through its converter when one is declared (a falsy
converter name means none); an unknown property name throws. -/
def getModelToThreeGetter (config : ResolvedCfg) (propName : String) :
    Except GenErr String :=
  match objGet config.allProperties propName with
  | none => Except.error (GenErr.invalidPropName propName)
  | some prop =>
    let converter := prop.propertyConverterFn
    if jsTruthy converter then
      Except.ok ("this." ++ converter.getD "" ++ "ModelToThree(this.get(\x27" ++
        propName ++ "\x27), \x27" ++ propName ++ "\x27)")
    else Except.ok ("this.get(\x27" ++ propName ++ "\x27)")

/-- `getConstructorParametersObject`: the multi-line object literal collecting
every own property into a single keyed structure. -/
def getConstructorParametersObject (config : ResolvedCfg) :
    Except GenErr (List String) :=
  match exceptMapM (fun kv =>
      match getModelToThreeGetter config kv.1 with
      | Except.error e => Except.error e
      | Except.ok g => Except.ok ("                " ++ kv.1 ++ ": " ++ g ++ ","))
      ((config.properties.getD []) : ObjMap PropDesc) with
  | Except.error e => Except.error e
  | Except.ok mids => Except.ok (["\x7b"] ++ mids ++ ["            \x7d"])

/-- `JavascriptWrapper.processConstructorArgs`. -/
def jsProcessConstructorArgs (config : ResolvedCfg) :
    Except GenErr (List String) :=
  exceptMapM (fun propName =>
    if propName = "parameters" then
      match getConstructorParametersObject config with
      | Except.error e => Except.error e
      | Except.ok lines => Except.ok (strIntercalate "\n" lines)
    else getModelToThreeGetter config propName)
    (config.constructorArgs.getD [])

/-- The per-property render record of `JavascriptWrapper.processProperties`. -/
structure JsPropRec where
  defaultJson : String
  propertyArrayName : Option String
  propertyConverter : Option String
  propertyAssigner : Option String
deriving Repr, DecidableEq, Inhabited

/-- `JavascriptWrapper.processProperties` (the `_.mapObject` part). -/
def jsProcessProperties (config : ResolvedCfg) : ObjMap JsPropRec :=
  (config.properties.getD []).map (fun kv =>
    (kv.1, { defaultJson := kv.2.jsPropertyValue,
             propertyArrayName := kv.2.propArrayName,
             propertyConverter := kv.2.propertyConverterFn,
             propertyAssigner := kv.2.propertyAssignmentFn }))

/-- The `serializedProps` table: the properties declaring a (truthy)
serializer, mapped to it. -/
def jsSerializedProps (config : ResolvedCfg) : ObjMap String :=
  (config.properties.getD []).filterMap (fun kv =>
    if jsTruthy kv.2.serializer then some (kv.1, kv.2.serializer.getD "")
    else none)

/-- The `enum_properties` table: the properties declaring a (truthy) enum
type name, mapped to it. -/
def jsEnumProperties (config : ResolvedCfg) : ObjMap String :=
  (config.properties.getD []).filterMap (fun kv =>
    if jsTruthy kv.2.enumTypeName then some (kv.1, kv.2.enumTypeName.getD "")
    else none)

/-- The `override_class` context entry (`processOverrideClass`); the source
reads the never-assigned `this.modelClass`, so the override model name is the
string `'Override.undefined'`. -/
structure JsOverrideClass where
  relativePath : String
  modelName : String
deriving Repr, DecidableEq, Inhabited

/-- The rendering context `JavascriptWrapper` passes to its template
(`this.context`).  `new Date()` is the `now` field (a clock reading);
`viewName` is the never-assigned `this.viewName` (`undefined`). -/
structure JsContext where
  now : Nat
  generatorScriptName : String
  className : String
  viewName : Option String
  modelName : String
  superClass : JsRequireInfo
  constructorArgs : List String
  properties : ObjMap JsPropRec
  dependencies : ObjMap JsRequireInfo
  propsCreatedByThree : List String
  serializedProps : ObjMap String
  enumProperties : ObjMap String
  overrideClass : Option JsOverrideClass
deriving Repr, DecidableEq, Inhabited

/-- The outcome of the `JavascriptWrapper` constructor: the output path and
the rendering context.  The written text is `template(context)` with the
template engine an external collaborator, so the context records the full
render input. -/
structure JsWrapper where
  jsAutoDestPath : String
  context : JsContext
deriving Repr, DecidableEq, Inhabited

/-- The `JavascriptWrapper` constructor (the extra-definition spawning is the
batch's concern and performs no computation inside this wrapper). -/
def buildJsWrapper (st : Store) (fs : String → Bool) (jsSrcDir : String)
    (modulePath : String) (classNameArg : Option String) (time : Nat) :
    Except GenErr JsWrapper :=
  let jsDestPath := pathResolve jsSrcDir modulePath
  let destDir := pathDirname jsDestPath
  let jsAutoDestPath0 := pathResolve destDir
    (pathBasename jsDestPath ".js" ++ "." ++ AUTOGEN_EXT ++ ".js")
  let className :=
    match classNameArg with
    | some cn => cn
    | none => undot (pathBasename modulePath ".js")
  let jsAutoDestPath :=
    match classNameArg with
    | some cn => pathResolve (pathDirname jsAutoDestPath0)
        (cn ++ "." ++ AUTOGEN_EXT ++ ".js")
    | none => jsAutoDestPath0
  match getClassConfig st className with
  | Except.error e => Except.error e
  | Except.ok config =>
    let customSrcPath := pathJoin (pathDirname jsDestPath)
      (pathBasename jsDestPath ".js" ++ ".js")
    let hasOverride := fs customSrcPath
    match jsProcessSuperClass st fs jsSrcDir destDir config with
    | Except.error e => Except.error e
    | Except.ok superClass =>
      match jsProcessDependencies st fs jsSrcDir destDir config with
      | Except.error e => Except.error e
      | Except.ok dependencies =>
        match jsProcessConstructorArgs config with
        | Except.error e => Except.error e
        | Except.ok constructorArgs =>
          Except.ok
            { jsAutoDestPath := jsAutoDestPath
              context :=
                { now := time
                  generatorScriptName := "generate-wrappers.js"
                  className := className
                  viewName := none
                  modelName := className ++ "Model"
                  superClass := superClass
                  constructorArgs := constructorArgs
                  properties := jsProcessProperties config
                  dependencies := dependencies
                  propsCreatedByThree := config.propsDefinedByThree
                  serializedProps := jsSerializedProps config
                  enumProperties := jsEnumProperties config
                  overrideClass :=
                    if hasOverride then
                      some { relativePath := "./" ++ className ++ ".js",
                             modelName := "Override.undefined" }
                    else none } }

/-- One constructor-argument record in the Python rendering context. -/
structure PyCtorArg where
  name : String
  defaultJson : String
deriving Repr, DecidableEq, Inhabited

/-- The per-property render record of `PythonWrapper.processProperties`. -/
structure PyPropRec where
  traitDeclaration : String
  defaultJson : String
deriving Repr, DecidableEq, Inhabited

/-- `PythonWrapper.processProperties`. -/
def pyProcessProperties (config : ResolvedCfg) : ObjMap PyPropRec :=
  (config.properties.getD []).map (fun kv =>
    (kv.1, { traitDeclaration := kv.2.traitlet,
             defaultJson := kv.2.pythonDefaultValue }))

/-- `PythonWrapper.processDocsUrl`.  Note: the source's `docsUrl = null`
assignment for custom classes is dead — the method unconditionally overwrites
`docsUrl` with the computed URL afterwards. -/
def pyProcessDocsUrl (modulePath : String) : String :=
  let refTokens := strSplitOn modulePath "/"
  let refTokens := refTokens.dropLast ++ [pathBasename (refTokens.getLastD "") ".js"]
  let refUrl := "http://threejs.org/docs/#api/" ++ strIntercalate "/" refTokens
  let refUrl := jsReplaceFirst refUrl "Renderers/WebGL/Plugins/" "Renderers.WebGL.Plugins/"
  let refUrl := jsReplaceFirst refUrl "Renderers/WebGL/" "Renderers.WebGL/"
  let refUrl := jsReplaceFirst refUrl "Renderers/Shaders/" "Renderers.Shaders/"
  let refUrl := jsReplaceFirst refUrl "Extras/Animation/" "Extras.Animation/"
  let refUrl := jsReplaceFirst refUrl "Extras/Core/" "Extras.Core/"
  let refUrl := jsReplaceFirst refUrl "Extras/Curves/" "Extras.Curves/"
  let refUrl := jsReplaceFirst refUrl "Extras/Geometries/" "Extras.Geometries/"
  let refUrl := jsReplaceFirst refUrl "Extras/Helpers/" "Extras.Helpers/"
  let refUrl := jsReplaceFirst refUrl "Extras/Objects/" "Extras.Objects/"
  refUrl

/-- `PythonWrapper.processConstructorArgs`: builds the argument records in
order, switching `hasParameters` on when the `'parameters'` bag is used; a
constructor argument naming an unknown property throws (a `TypeError` in the
source). -/
def pyProcessConstructorArgs (config : ResolvedCfg) :
    Except GenErr (List PyCtorArg × Bool) :=
  exceptFoldl (fun (acc : List PyCtorArg × Bool) propName =>
    if propName = "parameters" then
      Except.ok (acc.1 ++ [PyCtorArg.mk propName "\x7b\x7d"], true)
    else
      match objGet config.allProperties propName with
      | none => Except.error (GenErr.invalidPropName propName)
      | some prop =>
        Except.ok (acc.1 ++ [PyCtorArg.mk propName prop.pythonDefaultValue],
          acc.2))
    (config.constructorArgs.getD []) ([], false)

/-- The rendering context `PythonWrapper` passes to its template. -/
structure PyContext where
  now : Nat
  generatorScriptName : String
  threejsDocsUrl : String
  pyBaseRelativePath : String
  constructorArgs : List PyCtorArg
  hasParameters : Bool
  className : String
  modelName : String
  superClass : PyRequireInfo
  properties : ObjMap PyPropRec
  dependencies : ObjMap PyRequireInfo
  hasOverride : Bool
  isCustom : Bool
deriving Repr, DecidableEq, Inhabited

/-- The outcome of the `PythonWrapper` constructor. -/
structure PyWrapper where
  pyAutoDestPath : String
  context : PyContext
deriving Repr, DecidableEq, Inhabited

/-- The `PythonWrapper` constructor. -/
def buildPyWrapper (st : Store) (fs : String → Bool) (pySrcDir : String)
    (modulePath : String) (classNameArg : Option String) (time : Nat) :
    Except GenErr PyWrapper :=
  let dirRelativePath := pathDirname modulePath
  let destDirAbsolutePath := pathResolve pySrcDir dirRelativePath
  let basename := pathBasename modulePath ".js"
  let className :=
    match classNameArg with
    | some cn => cn
    | none => undot basename
  let pyDestPath := pathResolve destDirAbsolutePath (className ++ ".py")
  let pyAutoDestPath := pathResolve destDirAbsolutePath
    (className ++ "_" ++ AUTOGEN_EXT ++ ".py")
  let pyBaseRelativePath :=
    relativePathToPythonImportPath (pathRelative destDirAbsolutePath pySrcDir)
  let hasOverride := fs pyDestPath
  let isCustom := CUSTOM_CLASSES.contains modulePath
  match getClassConfig st className with
  | Except.error e => Except.error e
  | Except.ok config =>
    match pyProcessSuperClass st fs pySrcDir destDirAbsolutePath config with
    | Except.error e => Except.error e
    | Except.ok superClass =>
      match pyProcessDependencies st fs pySrcDir destDirAbsolutePath config with
      | Except.error e => Except.error e
      | Except.ok dependencies =>
        match pyProcessConstructorArgs config with
        | Except.error e => Except.error e
        | Except.ok ctorArgs =>
          Except.ok
            { pyAutoDestPath := pyAutoDestPath
              context :=
                { now := time
                  generatorScriptName := "generate-wrappers.js"
                  threejsDocsUrl := pyProcessDocsUrl modulePath
                  pyBaseRelativePath := pyBaseRelativePath
                  constructorArgs := ctorArgs.1
                  hasParameters := ctorArgs.2
                  className := className
                  modelName := className ++ "Model"
                  superClass := superClass
                  properties := pyProcessProperties config
                  dependencies := dependencies
                  hasOverride := hasOverride
                  isCustom := isCustom } }

/-- The outcome of `createJavascriptWrapper` for one class: a non-fatal
skipped result carrying the logged error, or the output file's path and
render input (the write itself is `fse.outputFile(path, template(context))`).
-/
inductive GenResultJs where
  | skipped (e : GenErr)
  | wrote (path : String) (context : JsContext)
deriving Repr, DecidableEq, Inhabited

/-- The outcome of `createPythonWrapper` for one class. -/
inductive GenResultPy where
  | skipped (e : GenErr)
  | wrote (path : String) (context : PyContext)
deriving Repr, DecidableEq, Inhabited

/-- `createJavascriptWrapper`: constructor errors are caught, logged and
turned into a non-fatal skipped result with no file written. -/
def createJavascriptWrapperM (st : Store) (fs : String → Bool)
    (jsSrcDir modulePath : String) (classNameArg : Option String)
    (time : Nat) : GenResultJs :=
  match buildJsWrapper st fs jsSrcDir modulePath classNameArg time with
  | Except.error e => GenResultJs.skipped e
  | Except.ok w => GenResultJs.wrote w.jsAutoDestPath w.context

/-- `createPythonWrapper`. -/
def createPythonWrapperM (st : Store) (fs : String → Bool)
    (pySrcDir modulePath : String) (classNameArg : Option String)
    (time : Nat) : GenResultPy :=
  match buildPyWrapper st fs pySrcDir modulePath classNameArg time with
  | Except.error e => GenResultPy.skipped e
  | Except.ok w => GenResultPy.wrote w.pyAutoDestPath w.context

/-- The batch over the enumerated source units (`mapPromiseFnOverGlob` /
`mapPromiseFnOverFileList` collect one independent result per unit). -/
def jsBatch (st : Store) (fs : String → Bool) (jsSrcDir : String)
    (time : Nat) (files : List String) : List GenResultJs :=
  files.map (fun f => createJavascriptWrapperM st fs jsSrcDir f none time)

def pyBatch (st : Store) (fs : String → Bool) (pySrcDir : String)
    (time : Nat) (files : List String) : List GenResultPy :=
  files.map (fun f => createPythonWrapperM st fs pySrcDir f none time)

/-- The rendering context of `writeIndexForDir`. -/
structure JsIndexContext where
  now : Nat
  generatorScriptName : String
  topLevel : Bool
  submodules : List String
deriving Repr, DecidableEq, Inhabited

def jsIndexContext (dirPath : String) (dirListing : List String)
    (isTopLevel : Bool) (time : Nat) : JsIndexContext :=
  { now := time, generatorScriptName := "generate-wrappers.js",
    topLevel := isTopLevel, submodules := jsIndexEntries dirPath dirListing }

/-- Erase the clock reading from a context (the claim-side projection used to
compare two runs). -/
def jsContextEraseNow (c : JsContext) : JsContext := { c with now := 0 }

def pyContextEraseNow (c : PyContext) : PyContext := { c with now := 0 }

def jsIndexContextEraseNow (c : JsIndexContext) : JsIndexContext :=
  { c with now := 0 }

/-- A minimal store on which wrapper construction succeeds: one root class
whose defaulted superclass is the base-widget path. -/
def miniStore : Store :=
  { entries := [("A", { relativePath := some "x/A",
                        properties := some [],
                        constructorArgs := some [] })]
    defaults := { superClass := some "./_base/Three", relativePath := some "" } }

/-- A template that renders the context's generation timestamp, as the
shipped templates' generation-date stamp does; the engine itself is an
external collaborator that receives the whole context. -/
def timestampRender (c : JsContext) : String := Nat.repr c.now

/-- C3 counterexample: two runs of the pipeline over identical inputs
(`miniStore`, no overrides, same module path) at different clock readings
produce different rendering contexts — the constructor embeds `new Date()`
into the context — and therefore different output bytes under any template
that renders the timestamp.  This refutes byte-identical outputs as a
property of the inputs alone. -/
theorem context_not_time_invariant :
    ((buildJsWrapper miniStore fs0 "/js" "x/A.js" none 0).map
        (fun w => w.context.now) = Except.ok 0) ∧
    ((buildJsWrapper miniStore fs0 "/js" "x/A.js" none 1).map
        (fun w => w.context.now) = Except.ok 1) ∧
    (buildJsWrapper miniStore fs0 "/js" "x/A.js" none 0).map
        (fun w => timestampRender w.context) ≠
      (buildJsWrapper miniStore fs0 "/js" "x/A.js" none 1).map
        (fun w => timestampRender w.context) := by
  refine ⟨rfl, rfl, ?_⟩
  intro h
  have h2 := congrArg
    (fun x => match x with | Except.ok s => s | Except.error _ => "") h
  have h3 : ("0" : String) = "1" := h2
  exact absurd h3 (by decide)

/-- C3 (amended): for fixed inputs, the rendering contexts of two runs — for
every per-class output in both languages and for every directory index — are
identical except for the embedded `now` timestamp; byte-identical outputs
therefore hold exactly when the templates do not render `now` (and
unconditionally when the two runs observe equal clock readings). -/
theorem context_deterministic_modulo_now :
    ∀ (st : Store) (fs : String → Bool) (jsSrcDir pySrcDir modulePath : String)
      (classNameArg : Option String) (t1 t2 : Nat) (dirPath : String)
      (dirListing : List String) (isTopLevel : Bool),
    ((buildJsWrapper st fs jsSrcDir modulePath classNameArg t1).map
        (fun w => jsContextEraseNow w.context) =
      (buildJsWrapper st fs jsSrcDir modulePath classNameArg t2).map
        (fun w => jsContextEraseNow w.context)) ∧
    ((buildPyWrapper st fs pySrcDir modulePath classNameArg t1).map
        (fun w => pyContextEraseNow w.context) =
      (buildPyWrapper st fs pySrcDir modulePath classNameArg t2).map
        (fun w => pyContextEraseNow w.context)) ∧
    (jsIndexContextEraseNow (jsIndexContext dirPath dirListing isTopLevel t1) =
      jsIndexContextEraseNow (jsIndexContext dirPath dirListing isTopLevel t2)) := by
  intro st fs jsSrcDir pySrcDir modulePath classNameArg t1 t2 dirPath dirListing isTopLevel
  refine ⟨?_, ?_, rfl⟩
  · unfold buildJsWrapper
    split
    all_goals
      dsimp only
      split
      · rfl
      · split
        · rfl
        · split
          · rfl
          · split
            · rfl
            · rfl
  · unfold buildPyWrapper
    dsimp only
    split
    · rfl
    · split
      · rfl
      · split
        · rfl
        · split
          · rfl
          · rfl

/-- C8: if the wrapper constructor throws for a class (configuration or
reference resolution failure), the per-class generator of either language
returns a non-fatal skipped result carrying the error and writes nothing;
when construction succeeds it writes exactly the wrapper's output file; and
the batch maps every enumerated unit independently, so a failing unit leaves
the processing of every other unit unchanged. -/
theorem generator_skips_failed_class :
    (∀ (st : Store) (fs : String → Bool) (jsSrcDir modulePath : String)
       (cn : Option String) (t : Nat) (e : GenErr),
       buildJsWrapper st fs jsSrcDir modulePath cn t = Except.error e →
       createJavascriptWrapperM st fs jsSrcDir modulePath cn t =
         GenResultJs.skipped e) ∧
    (∀ (st : Store) (fs : String → Bool) (jsSrcDir modulePath : String)
       (cn : Option String) (t : Nat) (w : JsWrapper),
       buildJsWrapper st fs jsSrcDir modulePath cn t = Except.ok w →
       createJavascriptWrapperM st fs jsSrcDir modulePath cn t =
         GenResultJs.wrote w.jsAutoDestPath w.context) ∧
    (∀ (st : Store) (fs : String → Bool) (pySrcDir modulePath : String)
       (cn : Option String) (t : Nat) (e : GenErr),
       buildPyWrapper st fs pySrcDir modulePath cn t = Except.error e →
       createPythonWrapperM st fs pySrcDir modulePath cn t =
         GenResultPy.skipped e) ∧
    (∀ (st : Store) (fs : String → Bool) (pySrcDir modulePath : String)
       (cn : Option String) (t : Nat) (w : PyWrapper),
       buildPyWrapper st fs pySrcDir modulePath cn t = Except.ok w →
       createPythonWrapperM st fs pySrcDir modulePath cn t =
         GenResultPy.wrote w.pyAutoDestPath w.context) ∧
    (∀ (st : Store) (fs : String → Bool) (jsSrcDir : String) (t : Nat)
       (l1 l2 : List String) (f : String),
       jsBatch st fs jsSrcDir t (l1 ++ f :: l2) =
         jsBatch st fs jsSrcDir t l1 ++
           createJavascriptWrapperM st fs jsSrcDir f none t ::
             jsBatch st fs jsSrcDir t l2) ∧
    (∀ (st : Store) (fs : String → Bool) (pySrcDir : String) (t : Nat)
       (l1 l2 : List String) (f : String),
       pyBatch st fs pySrcDir t (l1 ++ f :: l2) =
         pyBatch st fs pySrcDir t l1 ++
           createPythonWrapperM st fs pySrcDir f none t ::
             pyBatch st fs pySrcDir t l2) := by
  refine ⟨?_, ?_, ?_, ?_, ?_, ?_⟩
  · intro st fs jsSrcDir modulePath cn t e h
    unfold createJavascriptWrapperM
    rw [h]
  · intro st fs jsSrcDir modulePath cn t w h
    unfold createJavascriptWrapperM
    rw [h]
  · intro st fs pySrcDir modulePath cn t e h
    unfold createPythonWrapperM
    rw [h]
  · intro st fs pySrcDir modulePath cn t w h
    unfold createPythonWrapperM
    rw [h]
  · intro st fs jsSrcDir t l1 l2 f
    unfold jsBatch
    rw [List.map_append, List.map_cons]
  · intro st fs pySrcDir t l1 l2 f
    unfold pyBatch
    rw [List.map_append, List.map_cons]

/-- C8 witness: on `danglingStore` the class `A` fails resolution and both
generators return skipped results; on `miniStore` construction succeeds and
the generators write; a batch with a failing middle unit still processes the
units around it. -/
theorem generator_skips_failed_class_witness :
    (createJavascriptWrapperM danglingStore fs0 "/js" "x/A.js" none 0 =
      GenResultJs.skipped (GenErr.unknownClass "B")) ∧
    (createJavascriptWrapperM miniStore fs0 "/js" "x/A.js" none 0 =
      GenResultJs.wrote
        ((buildJsWrapper miniStore fs0 "/js" "x/A.js" none 0).toOption.getD
          default).jsAutoDestPath
        ((buildJsWrapper miniStore fs0 "/js" "x/A.js" none 0).toOption.getD
          default).context) ∧
    (createPythonWrapperM danglingStore fs0 "/py" "x/A.js" none 0 =
      GenResultPy.skipped (GenErr.unknownClass "B")) ∧
    (createPythonWrapperM miniStore fs0 "/py" "x/A.js" none 0 =
      GenResultPy.wrote
        ((buildPyWrapper miniStore fs0 "/py" "x/A.js" none 0).toOption.getD
          default).pyAutoDestPath
        ((buildPyWrapper miniStore fs0 "/py" "x/A.js" none 0).toOption.getD
          default).context) ∧
    (jsBatch danglingStore fs0 "/js" 0 (["x/A.js"] ++ "y/B.js" :: ["z/C.js"]) =
      jsBatch danglingStore fs0 "/js" 0 ["x/A.js"] ++
        createJavascriptWrapperM danglingStore fs0 "/js" "y/B.js" none 0 ::
          jsBatch danglingStore fs0 "/js" 0 ["z/C.js"]) ∧
    (pyBatch danglingStore fs0 "/py" 0 (["x/A.js"] ++ "y/B.js" :: ["z/C.js"]) =
      pyBatch danglingStore fs0 "/py" 0 ["x/A.js"] ++
        createPythonWrapperM danglingStore fs0 "/py" "y/B.js" none 0 ::
          pyBatch danglingStore fs0 "/py" 0 ["z/C.js"]) := by
  obtain ⟨t1, t2, t3, t4, t5, t6⟩ := generator_skips_failed_class
  exact ⟨t1 danglingStore fs0 "/js" "x/A.js" none 0 (GenErr.unknownClass "B") rfl,
    t2 miniStore fs0 "/js" "x/A.js" none 0 _ rfl,
    t3 danglingStore fs0 "/py" "x/A.js" none 0 (GenErr.unknownClass "B") rfl,
    t4 miniStore fs0 "/py" "x/A.js" none 0 _ rfl,
    t5 danglingStore fs0 "/js" 0 ["x/A.js"] ["z/C.js"] "y/B.js",
    t6 danglingStore fs0 "/py" 0 ["x/A.js"] ["z/C.js"] "y/B.js"⟩
